import Mathlib

/-!
Verification of the character-timing pipeline:
`server/agent_direct.py` (class `CharacterDataPublisher`) and
`server/file_logger.py` (class `AlignmentLogger`, function
`get_alignment_logger`).

The Python code is shallowly embedded:
* `capture_text` becomes a total function producing an explicit effect
  trace (attempted / successful side-channel publishes, fragments
  forwarded to the next stage) together with an explicit
  `raised : Option CaptureError` field standing for an exception
  escaping the call.  Failure of the side-channel publish (anything
  raised inside the `try` block: building, serialising or sending the
  message) is an oracle boolean, as is failure of the downstream
  stage's own `capture_text`.
* the file system becomes a map from paths to file objects; writing a
  file updates the map; a `corrupt` file object stands for a file whose
  read raises.
* `json.dump(..., ensure_ascii=False, indent=2)` applied to the
  alignment dictionary becomes a character-exact serialiser of the
  record, and `json.load` becomes a fuelled general JSON parser
  (restricted to integer numerals, the only numerals this logger ever
  writes; other numerals make the parser fail rather than misparse).
* `datetime.now().strftime("%Y%m%d_%H%M%S_%f")` becomes a pure
  formatting function of an explicit clock value.
-/

/- ## 1. The interceptor: `CharacterDataPublisher.capture_text` -/

/-- A text fragment carrying character timing, `livekit.agents.voice.io.TimedString`:
text plus `start_time` / `end_time` in floating-point seconds. -/
structure TimedString where
  text : String
  start_time : Float
  end_time : Float

/-- A fragment flowing through the text-output chain: either a plain string or a
`TimedString` (the `isinstance(text, io.TimedString)` distinction). -/
inductive Fragment where
  | plain (text : String)
  | timed (ts : TimedString)

/-- The side-channel message built in `capture_text`:
`{'type': 'transcription', 'text': str(text), 'start_time': ..., 'end_time': ...}`. -/
structure SideChannelMsg where
  type : String
  text : String
  start_time : Float
  end_time : Float

/-- Message built from a timed fragment, as in the `json.dumps({...})` call. -/
def buildMsg (ts : TimedString) : SideChannelMsg :=
  { type := "transcription", text := ts.text,
    start_time := ts.start_time, end_time := ts.end_time }

/-- An exception escaping `capture_text`.  The only site outside the
`try`/`except` block that can raise is the forwarding call
`next_in_chain.capture_text`. -/
inductive CaptureError where
  | nextStageError
deriving DecidableEq

/-- Effect trace of one `capture_text` call. -/
structure CaptureResult where
  /-- messages whose publish was attempted (the `publish_data` call reached) -/
  attempted : List SideChannelMsg
  /-- messages whose publish succeeded -/
  published : List SideChannelMsg
  /-- fragments passed to `next_in_chain.capture_text` -/
  forwarded : List Fragment
  /-- exception propagating out of `capture_text`, if any -/
  raised : Option CaptureError

/-- `CharacterDataPublisher.capture_text`.
`publishRaises` is the oracle for anything raised inside the `try` block
(serialisation or `publish_data`); that exception is caught by the
`except` clause.  `nextRaises` is the oracle for the downstream stage's
`capture_text` raising; that call is outside the `try` block.
`hasNext` is whether `next_in_chain` is set. -/
def capture_text (publishRaises nextRaises hasNext : Bool) (frag : Fragment) :
    CaptureResult :=
  let (attempted, published) :=
    match frag with
    | Fragment.timed ts =>
        if publishRaises then ([buildMsg ts], []) else ([buildMsg ts], [buildMsg ts])
    | Fragment.plain _ => ([], [])
  if hasNext then
    if nextRaises then
      { attempted := attempted, published := published,
        forwarded := [frag], raised := some CaptureError.nextStageError }
    else
      { attempted := attempted, published := published,
        forwarded := [frag], raised := none }
  else
    { attempted := attempted, published := published,
      forwarded := [], raised := none }

/-- `CharacterDataPublisher.flush`: forwards the flush signal iff a next stage
is configured (`true` = the next stage's `flush` was invoked once). -/
def flushStage (hasNext : Bool) : Bool := hasNext

/- ## 2. `AlignmentLogger.save_alignment`: record construction -/

/-- One element of the `"characters"` list built by `save_alignment`. -/
structure CharEntry where
  index : Nat
  char : String
  start_ms : Option Int
  duration_ms : Option Int
deriving DecidableEq, Repr

/-- The alignment dictionary built by `save_alignment` (field order as in the
Python dict literal). -/
structure AlignmentRecord where
  timestamp : String
  text : String
  text_length : Nat
  total_duration_ms : Int
  char_count : Nat
  characters : List CharEntry
deriving DecidableEq, Repr

/-- `total_duration` computation of `save_alignment`:
`total = 0; if times: total = times[-1];
if durations and len(durations) > 0: total += durations[-1]`. -/
def totalDurationMs (times : List Int) (durations : Option (List Int)) : Int :=
  match times.getLast? with
  | none => 0
  | some t =>
    match durations with
    | some ds =>
      match ds.getLast? with
      | some d => t + d
      | none => t
    | none => t

/-- `duration_ms` of entry `i`:
`durations[i] if durations and i < len(durations) else None`
(`durations` is falsy when `None` or the empty list). -/
def entryDurationMs (durations : Option (List Int)) (i : Nat) : Option Int :=
  match durations with
  | some ds => if ds.isEmpty then none else ds.get? i
  | none => none

/-- The `"characters"` list comprehension:
`[{index: i, char: char, start_ms: times[i] if i < len(times) else None,
duration_ms: ...} for i, char in enumerate(chars)]`. -/
def charEntries (chars : List String) (times : List Int)
    (durations : Option (List Int)) : List CharEntry :=
  chars.enum.map fun ic =>
    { index := ic.1, char := ic.2,
      start_ms := times.get? ic.1,
      duration_ms := entryDurationMs durations ic.1 }

/-- The `alignment_data` dictionary built by `save_alignment`, given the
timestamp token. -/
def buildAlignmentRecord (text : String) (chars : List String) (times : List Int)
    (durations : Option (List Int)) (timestamp : String) : AlignmentRecord :=
  { timestamp := timestamp
    text := text
    text_length := text.length
    total_duration_ms := totalDurationMs times durations
    char_count := chars.length
    characters := charEntries chars times durations }

/- ## 3. JSON values, serialisation (`json.dump`) and parsing (`json.load`) -/

/-- JSON values as returned by `json.load`.  Booleans and non-integer numerals
never occur in the files this logger writes, so they are omitted; the parser
below fails (rather than misparses) on them. -/
inductive Json where
  | null : Json
  | str : String → Json
  | num : Int → Json
  | arr : List Json → Json
  | obj : List (String × Json) → Json

/-- Escaping of one character by `json.dump(..., ensure_ascii=False)`:
`"` and `\` are escaped, control characters use the short escapes
`\b \t \n \f \r` or `\u00xx` (lowercase hex), everything else is passed
through verbatim. -/
def escapeChar (c : Char) : List Char :=
  if c = '"' then ['\\', '"']
  else if c = '\\' then ['\\', '\\']
  else if c = '\x08' then ['\\', 'b']
  else if c = '\x0c' then ['\\', 'f']
  else if c = '\n' then ['\\', 'n']
  else if c = '\r' then ['\\', 'r']
  else if c = '\t' then ['\\', 't']
  else if c.toNat < 0x20 then
    ['\\', 'u', '0', '0', Nat.digitChar (c.toNat / 16), Nat.digitChar (c.toNat % 16)]
  else [c]

/-- A serialised JSON string literal: quote, escaped characters, quote. -/
def dumpStringChars (s : String) : List Char :=
  '"' :: (s.data.flatMap escapeChar ++ ['"'])

/-- Decimal numeral of a natural number, as printed by Python `repr`. -/
def natNumChars (n : Nat) : List Char :=
  if n = 0 then ['0'] else (Nat.digits 10 n).reverse.map Nat.digitChar

/-- Decimal numeral of an integer, as printed by Python `repr`. -/
def intNumChars (i : Int) : List Char :=
  if i < 0 then '-' :: natNumChars i.natAbs else natNumChars i.toNat

/-- Serialisation of an optional integer field (`None` prints as `null`). -/
def dumpOptIntChars : Option Int → List Char
  | none => "null".data
  | some i => intNumChars i

/-- The text `json.dump(entry, ..., ensure_ascii=False, indent=2)` produces for
one `characters` entry, at nesting depth 2 (indent 4, inner keys at indent 6). -/
def dumpEntryChars (e : CharEntry) : List Char :=
  "\x7b\n      \"index\": ".data ++ natNumChars e.index ++
  ",\n      \"char\": ".data ++ dumpStringChars e.char ++
  ",\n      \"start_ms\": ".data ++ dumpOptIntChars e.start_ms ++
  ",\n      \"duration_ms\": ".data ++ dumpOptIntChars e.duration_ms ++
  "\n    \x7d".data

/-- The item separator plus each further entry, the `indent=2` separator at
depth 2 being a comma, a newline and four spaces. -/
def dumpEntriesRest : List CharEntry → List Char
  | [] => []
  | e :: es => ",\n    ".data ++ (dumpEntryChars e ++ dumpEntriesRest es)

/-- The `characters` entries joined by the item separator. -/
def dumpEntriesChars : List CharEntry → List Char
  | [] => []
  | e :: es => dumpEntryChars e ++ dumpEntriesRest es

/-- The serialised `characters` array (`[]` when empty, otherwise spread over
lines as `json.dump(..., indent=2)` prints a non-empty list at depth 1). -/
def dumpCharsArray (es : List CharEntry) : List Char :=
  match es with
  | [] => "[]".data
  | _ => "[\n    ".data ++ dumpEntriesChars es ++ "\n  ]".data

/-- The exact text `json.dump(alignment_data, f, ensure_ascii=False, indent=2)`
writes for the alignment dictionary (keys in dict-literal order). -/
def dumpRecordChars (r : AlignmentRecord) : List Char :=
  "\x7b\n  \"timestamp\": ".data ++ dumpStringChars r.timestamp ++
  ",\n  \"text\": ".data ++ dumpStringChars r.text ++
  ",\n  \"text_length\": ".data ++ natNumChars r.text_length ++
  ",\n  \"total_duration_ms\": ".data ++ intNumChars r.total_duration_ms ++
  ",\n  \"char_count\": ".data ++ natNumChars r.char_count ++
  ",\n  \"characters\": ".data ++ dumpCharsArray r.characters ++
  "\n\x7d".data

/-- The serialised alignment record as a string. -/
def dumpRecord (r : AlignmentRecord) : String :=
  String.mk (dumpRecordChars r)

/-- The JSON value (Python dictionary) `json.load` yields for an entry. -/
def optIntToJson : Option Int → Json
  | none => Json.null
  | some i => Json.num i

/-- The dictionary of one `characters` entry. -/
def entryToJson (e : CharEntry) : Json :=
  Json.obj [("index", Json.num e.index), ("char", Json.str e.char),
            ("start_ms", optIntToJson e.start_ms),
            ("duration_ms", optIntToJson e.duration_ms)]

/-- The alignment dictionary as a JSON value. -/
def recordToJson (r : AlignmentRecord) : Json :=
  Json.obj [("timestamp", Json.str r.timestamp), ("text", Json.str r.text),
            ("text_length", Json.num r.text_length),
            ("total_duration_ms", Json.num r.total_duration_ms),
            ("char_count", Json.num r.char_count),
            ("characters", Json.arr (r.characters.map entryToJson))]

/-- JSON whitespace. -/
def isJsonWs (c : Char) : Bool :=
  c == ' ' || c == '\t' || c == '\n' || c == '\r'

/-- Drop leading JSON whitespace. -/
def skipWs : List Char → List Char
  | [] => []
  | c :: cs => if isJsonWs c then skipWs cs else c :: cs

/-- Value of a hexadecimal digit. -/
def parseHex (c : Char) : Option Nat :=
  if '0' ≤ c ∧ c ≤ '9' then some (c.toNat - 48)
  else if 'a' ≤ c ∧ c ≤ 'f' then some (c.toNat - 87)
  else if 'A' ≤ c ∧ c ≤ 'F' then some (c.toNat - 55)
  else none

/-- The single-character JSON escapes. -/
def unescape1 (e : Char) : Option Char :=
  if e = '"' then some '"'
  else if e = '\\' then some '\\'
  else if e = '/' then some '/'
  else if e = 'b' then some '\x08'
  else if e = 'f' then some '\x0c'
  else if e = 'n' then some '\n'
  else if e = 'r' then some '\r'
  else if e = 't' then some '\t'
  else none

/-- JSON string-body scanner (after the opening quote), as in the strict
`json.load` scanner: a raw control character is an error, `\uXXXX` decodes a
code point (surrogate values are rejected here; the logger never writes them,
as it only `\u`-escapes control characters). -/
def parseStrChars : List Char → Option (List Char × List Char)
  | [] => none
  | c :: r =>
    if c = '"' then some ([], r)
    else if c = '\\' then
      match r with
      | [] => none
      | e :: r2 =>
        if e = 'u' then
          match r2 with
          | h1 :: h2 :: h3 :: h4 :: r3 =>
            (match parseHex h1, parseHex h2, parseHex h3, parseHex h4 with
             | some a, some b, some cc, some d =>
               let n := ((a * 16 + b) * 16 + cc) * 16 + d
               if n < 0xd800 ∨ (0xdfff < n ∧ n < 0x110000) then
                 match parseStrChars r3 with
                 | some (l, rest) => some (Char.ofNat n :: l, rest)
                 | none => none
               else none
             | _, _, _, _ => none)
          | _ => none
        else
          match unescape1 e with
          | some d =>
            match parseStrChars r2 with
            | some (l, rest) => some (d :: l, rest)
            | none => none
          | none => none
    else if c.toNat < 0x20 then none
    else
      match parseStrChars r with
      | some (l, rest) => some (c :: l, rest)
      | none => none

/-- Value of a decimal digit character. -/
def digitVal (c : Char) : Nat := c.toNat - 48

/-- Scan an unsigned JSON integer numeral: a nonempty digit run without a
redundant leading zero, not continued by a fraction or exponent (non-integer
numerals, which this logger never writes, are refused rather than misparsed). -/
def parseNatChars (cs : List Char) : Option (Nat × List Char) :=
  let ds := cs.takeWhile Char.isDigit
  let r := cs.dropWhile Char.isDigit
  if ds.isEmpty then none
  else if ds.head? = some '0' ∧ 1 < ds.length then none
  else if r.head? = some '.' ∨ r.head? = some 'e' ∨ r.head? = some 'E' then none
  else some (ds.foldl (fun a c => a * 10 + digitVal c) 0, r)

mutual

/-- Fuelled JSON value parser (the `json.load` scanner).  Every two units of
fuel consume at least one input character, so the fuel chosen in `jsonLoads`
never runs out. -/
def parseVal : Nat → List Char → Option (Json × List Char)
  | 0, _ => none
  | f + 1, cs =>
    match skipWs cs with
    | [] => none
    | c :: r =>
      if c = 'n' then
        match r with
        | 'u' :: 'l' :: 'l' :: r2 => some (Json.null, r2)
        | _ => none
      else if c = '"' then
        match parseStrChars r with
        | some (l, rest) => some (Json.str (String.mk l), rest)
        | none => none
      else if c = '-' then
        match parseNatChars r with
        | some (n, rest) => some (Json.num (-(n : Int)), rest)
        | none => none
      else if c.isDigit then
        match parseNatChars (c :: r) with
        | some (n, rest) => some (Json.num (n : Int), rest)
        | none => none
      else if c = '[' then
        match skipWs r with
        | ']' :: rest => some (Json.arr [], rest)
        | r2 =>
          match parseItems f r2 with
          | some (xs, rest) => some (Json.arr xs, rest)
          | none => none
      else if c = '{' then
        match skipWs r with
        | '}' :: rest => some (Json.obj [], rest)
        | r2 =>
          match parseMembers f r2 with
          | some (ms, rest) => some (Json.obj ms, rest)
          | none => none
      else none

/-- Items of a non-empty JSON array. -/
def parseItems : Nat → List Char → Option (List Json × List Char)
  | 0, _ => none
  | f + 1, cs =>
    match parseVal f cs with
    | some (x, r) =>
      match skipWs r with
      | ',' :: r2 =>
        match parseItems f r2 with
        | some (xs, rest) => some (x :: xs, rest)
        | none => none
      | ']' :: r2 => some ([x], r2)
      | _ => none
    | none => none

/-- Members of a non-empty JSON object. -/
def parseMembers : Nat → List Char → Option (List (String × Json) × List Char)
  | 0, _ => none
  | f + 1, cs =>
    match skipWs cs with
    | '"' :: r =>
      match parseStrChars r with
      | some (k, r1) =>
        match skipWs r1 with
        | ':' :: r2 =>
          match parseVal f r2 with
          | some (v, r3) =>
            match skipWs r3 with
            | ',' :: r4 =>
              match parseMembers f r4 with
              | some (ms, rest) => some ((String.mk k, v) :: ms, rest)
              | none => none
            | '}' :: r4 => some ([(String.mk k, v)], r4)
            | _ => none
          | none => none
        | _ => none
      | none => none
    | _ => none

end

/-- `json.load`: parse one JSON document, requiring only whitespace after it. -/
def jsonLoads (s : String) : Option Json :=
  match parseVal (2 * s.data.length + 2) s.data with
  | some (j, r) => if (skipWs r).isEmpty then some j else none
  | none => none

/- ## 4. Singleton accessor `get_alignment_logger` -/

/-- The state of an `AlignmentLogger` instance: its two directories,
`Path(base_dir) / "alignment"` and `Path(base_dir) / "outputs"`. -/
structure AlignmentLogger where
  alignment_dir : String
  output_dir : String
deriving DecidableEq

/-- `AlignmentLogger.__init__(base_dir)`. -/
def AlignmentLogger.ofBase (base_dir : String) : AlignmentLogger :=
  { alignment_dir := base_dir ++ "/alignment", output_dir := base_dir ++ "/outputs" }

/-- `get_alignment_logger(base_dir)` acting on the module-global
`_default_logger` cell; returns the instance and the new cell contents. -/
def get_alignment_logger (cell : Option AlignmentLogger) (base_dir : String) :
    AlignmentLogger × Option AlignmentLogger :=
  match cell with
  | none =>
    let l := AlignmentLogger.ofBase base_dir
    (l, some l)
  | some l => (l, some l)

/- ## 5. The timestamp token `datetime.now().strftime("%Y%m%d_%H%M%S_%f")` -/

/-- A clock reading, the components `strftime` formats. -/
structure DateTime where
  year : Nat
  month : Nat
  day : Nat
  hour : Nat
  minute : Nat
  second : Nat
  micro : Nat
deriving DecidableEq

/-- Each component fits its zero-padded field width (true of any reading of a
real clock: `month ≤ 12`, `micro < 10 ^ 6`, and so on). -/
def DateTime.valid (t : DateTime) : Prop :=
  t.year < 10000 ∧ t.month < 100 ∧ t.day < 100 ∧ t.hour < 100 ∧
    t.minute < 100 ∧ t.second < 100 ∧ t.micro < 1000000

instance (t : DateTime) : Decidable t.valid := by
  unfold DateTime.valid; infer_instance

/-- `t` reads earlier than `u`: lexicographic on the components, which is how
time advances between two sequential calls. -/
def DateTime.before (t u : DateTime) : Prop :=
  t.year < u.year ∨ (t.year = u.year ∧
    (t.month < u.month ∨ (t.month = u.month ∧
      (t.day < u.day ∨ (t.day = u.day ∧
        (t.hour < u.hour ∨ (t.hour = u.hour ∧
          (t.minute < u.minute ∨ (t.minute = u.minute ∧
            (t.second < u.second ∨ (t.second = u.second ∧
              t.micro < u.micro)))))))))))

instance (t u : DateTime) : Decidable (t.before u) := by
  unfold DateTime.before; infer_instance

/-- `n` in decimal, zero-padded to exactly `w` digits (the `%0wd` fields of
`strftime`), most significant first. -/
def padDigits : Nat → Nat → List Char
  | 0, _ => []
  | w + 1, n => padDigits w (n / 10) ++ [Nat.digitChar (n % 10)]

/-- The token `strftime("%Y%m%d_%H%M%S_%f")` of a clock reading. -/
def strftimeToken (t : DateTime) : String :=
  String.mk (padDigits 4 t.year ++ padDigits 2 t.month ++ padDigits 2 t.day ++
    '_' :: (padDigits 2 t.hour ++ padDigits 2 t.minute ++ padDigits 2 t.second ++
      '_' :: padDigits 6 t.micro))

/- ## 6. The file system, `save_alignment` writes and `get_latest_*` reads -/

/-- A stored file: readable content, or a file whose read raises. -/
inductive FileObj where
  | ok (content : String)
  | corrupt
deriving DecidableEq

/-- The file system: a map from paths to files. -/
def FS : Type := String → Option FileObj

/-- `open(path, "w")` followed by a full write. -/
def FS.write (fs : FS) (path content : String) : FS :=
  fun p => if p = path then some (FileObj.ok content) else fs p

/-- The timestamped alignment file `alignment_<token>.json`. -/
def tsAlignmentPath (l : AlignmentLogger) (token : String) : String :=
  l.alignment_dir ++ "/alignment_" ++ token ++ ".json"

/-- The "latest" alignment pointer `alignment.txt`. -/
def latestAlignmentPath (l : AlignmentLogger) : String :=
  l.alignment_dir ++ "/alignment.txt"

/-- The timestamped output file `output_<token>.txt`. -/
def tsOutputPath (l : AlignmentLogger) (token : String) : String :=
  l.output_dir ++ "/output_" ++ token ++ ".txt"

/-- The "latest" output pointer `output.txt`. -/
def latestOutputPath (l : AlignmentLogger) : String :=
  l.output_dir ++ "/output.txt"

/-- `AlignmentLogger.save_alignment`, with the `datetime.now()` reading passed
explicitly.  Returns the timestamped alignment filename and the file system
after its four writes (timestamped JSON, latest JSON, timestamped raw text,
latest raw text, in source order). -/
def save_alignment (l : AlignmentLogger) (now : DateTime) (text : String)
    (chars : List String) (times : List Int) (durations : Option (List Int))
    (fs : FS) : String × FS :=
  let timestamp := strftimeToken now
  let alignment_data := buildAlignmentRecord text chars times durations timestamp
  let content := dumpRecord alignment_data
  let fs1 := fs.write (tsAlignmentPath l timestamp) content
  let fs2 := fs1.write (latestAlignmentPath l) content
  let fs3 := fs2.write (tsOutputPath l timestamp) text
  let fs4 := fs3.write (latestOutputPath l) text
  (tsAlignmentPath l timestamp, fs4)

/-- `AlignmentLogger.get_latest_alignment`: `None` when `alignment.txt` does
not exist; the `try` block catches a raising read or a failing `json.load`
and returns `None`. -/
def get_latest_alignment (l : AlignmentLogger) (fs : FS) : Option Json :=
  match fs (latestAlignmentPath l) with
  | none => none
  | some FileObj.corrupt => none
  | some (FileObj.ok s) => jsonLoads s

/-- `AlignmentLogger.get_latest_output`: `None` when `output.txt` does not
exist; the `try` block catches a raising read and returns `None`. -/
def get_latest_output (l : AlignmentLogger) (fs : FS) : Option String :=
  match fs (latestOutputPath l) with
  | none => none
  | some FileObj.corrupt => none
  | some (FileObj.ok s) => some s

/- ## 7. Theorems about the interceptor -/

/-- C1: for every `TimedString` fragment, any failure raised while building,
serialising or sending the side-channel message is caught inside
`capture_text` and does not propagate, and the original fragment is still
forwarded to the next stage exactly once (or dropped when no next stage is
configured), whether or not the emission succeeded. -/
theorem capture_timed_swallows_emission_failure (publishRaises hasNext : Bool)
    (ts : TimedString) :
    (capture_text publishRaises false hasNext (Fragment.timed ts)).raised = none ∧
    (capture_text publishRaises false hasNext (Fragment.timed ts)).forwarded =
      (if hasNext then [Fragment.timed ts] else []) := by
  cases publishRaises <;> cases hasNext <;> simp [capture_text]

/-- C8: for every plain (non-timed) fragment, `capture_text` attempts no
side-channel emission and forwards the fragment exactly once when a next
stage is configured. -/
theorem capture_plain_no_emission (publishRaises nextRaises : Bool) (s : String) :
    (capture_text publishRaises nextRaises true (Fragment.plain s)).attempted = [] ∧
    (capture_text publishRaises nextRaises true (Fragment.plain s)).published = [] ∧
    (capture_text publishRaises nextRaises true (Fragment.plain s)).forwarded =
      [Fragment.plain s] := by
  cases publishRaises <;> cases nextRaises <;> simp [capture_text]

/-- C9: the `try`/`except` of `capture_text` covers only the side-channel
emission: an exception raised by the forwarding call
`next_in_chain.capture_text` propagates to the caller uncaught, while an
emission failure alone never propagates. -/
theorem capture_next_stage_error_propagates (publishRaises hasNext : Bool)
    (frag : Fragment) :
    (capture_text publishRaises true true frag).raised =
      some CaptureError.nextStageError ∧
    (capture_text publishRaises false hasNext frag).raised = none := by
  cases publishRaises <;> cases hasNext <;> cases frag <;> simp [capture_text]

/- ## 8. Theorems about the singleton accessor -/

/-- C10: `get_alignment_logger` creates the shared instance from the base
directory passed on the first call only; every later call returns that same
instance unchanged and leaves the cell unchanged, ignoring its argument. -/
theorem get_alignment_logger_singleton :
    (∀ base_dir, get_alignment_logger none base_dir =
      (AlignmentLogger.ofBase base_dir, some (AlignmentLogger.ofBase base_dir))) ∧
    (∀ inst base_dir2, get_alignment_logger (some inst) base_dir2 =
      (inst, some inst)) :=
  ⟨fun _ => rfl, fun _ _ => rfl⟩

/- ## 9. Theorems about the read path -/

/-- C6: `get_latest_alignment` and `get_latest_output` return `None` when the
latest-pointer file does not exist, and `None` on a raising read or (for the
alignment file) a failing parse; both are total functions into `Option`, so
no exception ever reaches the caller. -/
theorem get_latest_none_cases (l : AlignmentLogger) (fs : FS) :
    (fs (latestAlignmentPath l) = none → get_latest_alignment l fs = none) ∧
    (fs (latestAlignmentPath l) = some FileObj.corrupt →
      get_latest_alignment l fs = none) ∧
    (∀ s, fs (latestAlignmentPath l) = some (FileObj.ok s) → jsonLoads s = none →
      get_latest_alignment l fs = none) ∧
    (fs (latestOutputPath l) = none → get_latest_output l fs = none) ∧
    (fs (latestOutputPath l) = some FileObj.corrupt →
      get_latest_output l fs = none) := by
  refine ⟨fun h => ?_, fun h => ?_, fun s h hp => ?_, fun h => ?_, fun h => ?_⟩
  · simp [get_latest_alignment, h]
  · simp [get_latest_alignment, h]
  · simp [get_latest_alignment, h, hp]
  · simp [get_latest_output, h]
  · simp [get_latest_output, h]

/-- C6 witness: on an empty file system both getters return `None`, and a
syntactically invalid latest alignment file also yields `None`. -/
theorem get_latest_none_cases_witness :
    get_latest_alignment (AlignmentLogger.ofBase "logs") (fun _ => none) = none ∧
    get_latest_output (AlignmentLogger.ofBase "logs") (fun _ => none) = none ∧
    get_latest_alignment (AlignmentLogger.ofBase "logs")
      (fun _ => some (FileObj.ok "\x7b")) = none ∧
    get_latest_output (AlignmentLogger.ofBase "logs")
      (fun _ => some FileObj.corrupt) = none :=
  ⟨(get_latest_none_cases _ _).1 rfl,
   (get_latest_none_cases _ _).2.2.2.1 rfl,
   (get_latest_none_cases _ _).2.2.1 "\x7b" rfl rfl,
   (get_latest_none_cases _ _).2.2.2.2 rfl⟩

/- ## 10. Theorems about record construction -/

/-- The `characters` list has one entry per input character. -/
theorem charEntries_length (chars : List String) (times : List Int)
    (durations : Option (List Int)) :
    (charEntries chars times durations).length = chars.length := by
  simp [charEntries]

/-- Entry `i` of the `characters` list, elementwise. -/
theorem charEntries_getElem? (chars : List String) (times : List Int)
    (durations : Option (List Int)) (i : Nat) :
    (charEntries chars times durations)[i]? =
      (chars[i]?).map fun c =>
        { index := i, char := c, start_ms := times[i]?,
          duration_ms := entryDurationMs durations i } := by
  simp only [charEntries, List.getElem?_map]
  rw [show chars.enum[i]? = (chars[i]?).map fun c => (i, c) by
    simp [List.getElem?_enum]]
  cases chars[i]? <;> simp [List.get?_eq_getElem?]

/-- C2: under the documented preconditions (`times`, and `durations` when
given, are index-aligned with `chars`), `total_duration_ms` is the start
offset of the last character plus that character's duration when the duration
is known, just the last start offset when it is not, and `0` when there are
no characters. -/
theorem save_alignment_total_duration (text : String) (chars : List String)
    (times : List Int) (durations : Option (List Int)) (ts : String)
    (htimes : times.length = chars.length)
    (hdur : ∀ ds, durations = some ds → ds.length = chars.length) :
    (chars = [] →
      (buildAlignmentRecord text chars times durations ts).total_duration_ms = 0) ∧
    (∀ en s,
      (buildAlignmentRecord text chars times durations ts).characters.getLast? =
        some en →
      en.start_ms = some s →
      ((∀ d, en.duration_ms = some d →
          (buildAlignmentRecord text chars times durations ts).total_duration_ms
            = s + d) ∧
       (en.duration_ms = none →
          (buildAlignmentRecord text chars times durations ts).total_duration_ms
            = s))) := by
  constructor
  · intro h
    subst h
    have ht : times = [] := List.length_eq_zero.mp htimes
    subst ht
    simp [buildAlignmentRecord, totalDurationMs]
  · intro en s hlast hstart
    have hchars : chars ≠ [] := by
      rintro rfl
      simp [buildAlignmentRecord, charEntries] at hlast
    have hn : 0 < chars.length := List.length_pos.mpr hchars
    have hlen : (charEntries chars times durations).length = chars.length :=
      charEntries_length chars times durations
    rw [show (buildAlignmentRecord text chars times durations ts).characters =
          charEntries chars times durations from rfl,
        List.getLast?_eq_getElem?, hlen, charEntries_getElem?] at hlast
    obtain ⟨c, hc⟩ : ∃ c, chars[chars.length - 1]? = some c := by
      cases hc : chars[chars.length - 1]? with
      | none =>
        exfalso
        rw [List.getElem?_eq_none_iff] at hc
        omega
      | some c => exact ⟨c, rfl⟩
    rw [hc] at hlast
    rw [Option.map_some', Option.some_inj] at hlast
    have hen : en = CharEntry.mk (chars.length - 1) c (times[chars.length - 1]?)
        (entryDurationMs durations (chars.length - 1)) := hlast.symm
    have hstart' : times[chars.length - 1]? = some s := by
      rw [hen] at hstart; exact hstart
    have htimesLast : times.getLast? = some s := by
      rw [List.getLast?_eq_getElem?, htimes]
      exact hstart'
    have htotal : (buildAlignmentRecord text chars times durations ts).total_duration_ms
        = totalDurationMs times durations := rfl
    constructor
    · intro d hd
      rw [hen] at hd
      simp only at hd
      rw [htotal]
      cases hds : durations with
      | none => rw [hds] at hd; simp [entryDurationMs] at hd
      | some ds =>
        rw [hds] at hd
        simp only [entryDurationMs] at hd
        by_cases hem : ds.isEmpty
        · rw [if_pos hem] at hd; simp at hd
        · rw [if_neg hem] at hd
          have hdsLast : ds.getLast? = some d := by
            rw [List.getLast?_eq_getElem?, hdur ds hds, ← List.get?_eq_getElem?]
            exact hd
          simp [totalDurationMs, htimesLast, hdsLast]
    · intro hd
      rw [hen] at hd
      simp only at hd
      rw [htotal]
      cases hds : durations with
      | none =>
        simp [totalDurationMs, htimesLast]
      | some ds =>
        exfalso
        rw [hds] at hd
        simp only [entryDurationMs] at hd
        have hlends : ds.length = chars.length := hdur ds hds
        have hem : ¬ ds.isEmpty := by
          intro hem
          have := List.isEmpty_iff.mp hem
          rw [this] at hlends
          simp at hlends
          omega
        rw [if_neg hem] at hd
        rw [List.get?_eq_getElem?] at hd
        have hlt : chars.length - 1 < ds.length := by omega
        rw [List.getElem?_eq_getElem hlt] at hd
        simp at hd

/-- C2 witness: the aligned example `chars=["a","b"]`, `times=[100,250]`,
`durations=[50,60]` satisfies the preconditions and the total-duration rule. -/
theorem save_alignment_total_duration_witness :
    (([100, 250] : List Int).length = (["a", "b"] : List String).length) ∧
    ((∀ ds, (some [50, 60] : Option (List Int)) = some ds →
        ds.length = (["a", "b"] : List String).length) ∧
     ((["a", "b"] : List String) = [] →
        (buildAlignmentRecord "ab" ["a", "b"] [100, 250] (some [50, 60])
          "t").total_duration_ms = 0) ∧
     (∀ en s,
        (buildAlignmentRecord "ab" ["a", "b"] [100, 250] (some [50, 60])
          "t").characters.getLast? = some en →
        en.start_ms = some s →
        ((∀ d, en.duration_ms = some d →
            (buildAlignmentRecord "ab" ["a", "b"] [100, 250] (some [50, 60])
              "t").total_duration_ms = s + d) ∧
         (en.duration_ms = none →
            (buildAlignmentRecord "ab" ["a", "b"] [100, 250] (some [50, 60])
              "t").total_duration_ms = s)))) :=
  ⟨by decide,
   (fun ds h => by cases h; decide),
   save_alignment_total_duration "ab" ["a", "b"] [100, 250] (some [50, 60]) "t"
     (by decide) (fun ds h => by cases h; decide)⟩

/-- Bounds-checked indexing, phrased with an explicit bound check. -/
theorem get?_eq_dite (l : List Int) (i : Nat) :
    l.get? i = if h : i < l.length then some (l.get ⟨i, h⟩) else none := by
  by_cases h : i < l.length
  · rw [dif_pos h, List.get?_eq_get h]
  · rw [dif_neg h, List.get?_eq_none.mpr (by omega)]

/-- C3: entry `i` of the produced `characters` list has `start_ms = times[i]`
exactly when `i` is within the bounds of `times` and `null` otherwise, and
`duration_ms = durations[i]` exactly when `durations` is given and `i` is
within its bounds and `null` otherwise; out-of-bounds indices yield `null`,
never an error (the embedding is a total function). -/
theorem save_alignment_entry_fields (text : String) (chars : List String)
    (times : List Int) (durations : Option (List Int)) (ts : String) (i : Nat)
    (hi : i < chars.length) :
    ∃ en,
      (buildAlignmentRecord text chars times durations ts).characters[i]? =
        some en ∧
      en.index = i ∧ some en.char = chars[i]? ∧
      en.start_ms =
        (if h : i < times.length then some (times.get ⟨i, h⟩) else none) ∧
      en.duration_ms =
        (match durations with
         | some ds => if h : i < ds.length then some (ds.get ⟨i, h⟩) else none
         | none => none) := by
  obtain ⟨c, hc⟩ : ∃ c, chars[i]? = some c := by
    cases hc : chars[i]? with
    | none =>
      exfalso
      rw [List.getElem?_eq_none_iff] at hc
      omega
    | some c => exact ⟨c, rfl⟩
  refine ⟨CharEntry.mk i c (times.get? i) (entryDurationMs durations i),
    ?_, rfl, ?_, ?_, ?_⟩
  · show (charEntries chars times durations)[i]? = _
    rw [charEntries_getElem?, hc, Option.map_some', List.get?_eq_getElem?]
  · rw [hc]
  · show times.get? i = _
    exact get?_eq_dite times i
  · show entryDurationMs durations i = _
    cases durations with
    | none => rfl
    | some ds =>
      simp only [entryDurationMs]
      by_cases hem : ds.isEmpty
      · rw [if_pos hem]
        have : ds = [] := List.isEmpty_iff.mp hem
        subst this
        simp
      · rw [if_neg hem]
        exact get?_eq_dite ds i

/-- C3 witness: with `chars=["a","b"]` and `times=[10]` shorter than `chars`,
index 1 is in bounds of `chars` and the theorem applies (its conclusion puts
`start_ms = null` there rather than raising). -/
theorem save_alignment_entry_fields_witness :
    (1 < (["a", "b"] : List String).length) ∧
    (∃ en,
      (buildAlignmentRecord "ab" ["a", "b"] [10] none "t").characters[1]? =
        some en ∧
      en.index = 1 ∧ some en.char = (["a", "b"] : List String)[1]? ∧
      en.start_ms =
        (if h : 1 < ([10] : List Int).length then some (([10] : List Int).get ⟨1, h⟩)
         else none) ∧
      en.duration_ms =
        (match (none : Option (List Int)) with
         | some ds => if h : 1 < ds.length then some (ds.get ⟨1, h⟩) else none
         | none => none)) :=
  ⟨by decide,
   save_alignment_entry_fields "ab" ["a", "b"] [10] none "t" 1 (by decide)⟩

/-- C4: when `chars` is the character-sequence decomposition of `text`, the
record's `characters` length equals `char_count` equals `text_length`, and
`text_length` counts the characters of `text` (its code points, not its
UTF-8 bytes). -/
theorem save_alignment_count_invariant (text : String) (chars : List String)
    (times : List Int) (durations : Option (List Int)) (ts : String)
    (h : chars = text.data.map fun c => String.singleton c) :
    (buildAlignmentRecord text chars times durations ts).characters.length =
      (buildAlignmentRecord text chars times durations ts).char_count ∧
    (buildAlignmentRecord text chars times durations ts).char_count =
      (buildAlignmentRecord text chars times durations ts).text_length ∧
    (buildAlignmentRecord text chars times durations ts).text_length =
      text.data.length := by
  refine ⟨charEntries_length chars times durations, ?_, rfl⟩
  show chars.length = text.length
  rw [h, List.length_map]
  rfl

/-- C4 witness: Arabic text, whose character count (5) differs from its UTF-8
byte count (10), decomposed into its characters. -/
theorem save_alignment_count_invariant_witness :
    ((["م", "ر", "ح", "ب", "ا"] : List String) =
      "مرحبا".data.map fun c => String.singleton c) ∧
    ((buildAlignmentRecord "مرحبا" ["م", "ر", "ح", "ب", "ا"] [0, 100, 200, 300, 400]
        (some [90, 90, 90, 90, 90]) "t").characters.length =
      (buildAlignmentRecord "مرحبا" ["م", "ر", "ح", "ب", "ا"] [0, 100, 200, 300, 400]
        (some [90, 90, 90, 90, 90]) "t").char_count ∧
     (buildAlignmentRecord "مرحبا" ["م", "ر", "ح", "ب", "ا"] [0, 100, 200, 300, 400]
        (some [90, 90, 90, 90, 90]) "t").char_count =
      (buildAlignmentRecord "مرحبا" ["م", "ر", "ح", "ب", "ا"] [0, 100, 200, 300, 400]
        (some [90, 90, 90, 90, 90]) "t").text_length ∧
     (buildAlignmentRecord "مرحبا" ["م", "ر", "ح", "ب", "ا"] [0, 100, 200, 300, 400]
        (some [90, 90, 90, 90, 90]) "t").text_length = "مرحبا".data.length) :=
  ⟨by decide,
   save_alignment_count_invariant "مرحبا" ["م", "ر", "ح", "ب", "ا"]
     [0, 100, 200, 300, 400] (some [90, 90, 90, 90, 90]) "t" (by decide)⟩

/- ## 11. Round trip: serialised records parse back to their dictionaries -/

/-- `parseHex` inverts `Nat.digitChar` on hexadecimal digit values. -/
theorem parseHex_digitChar : ∀ m, m < 16 → parseHex (Nat.digitChar m) = some m := by
  decide

/-- Scanner step for a single-character escape. -/
theorem parseStrChars_esc (e d : Char) (X l rest : List Char)
    (hu : ¬ e = 'u') (hd : unescape1 e = some d)
    (hx : parseStrChars X = some (l, rest)) :
    parseStrChars ('\\' :: e :: X) = some (d :: l, rest) := by
  conv_lhs => rw [parseStrChars.eq_def]
  simp [hu, hd, hx]

/-- Scanner step for a verbatim (unescaped) character. -/
theorem parseStrChars_raw (c : Char) (X l rest : List Char)
    (h1 : ¬ c = '"') (h2 : ¬ c = '\\') (h8 : ¬ c.toNat < 0x20)
    (hx : parseStrChars X = some (l, rest)) :
    parseStrChars (c :: X) = some (c :: l, rest) := by
  conv_lhs => rw [parseStrChars.eq_def]
  simp [h1, h2, h8, hx]

/-- Scanner step for a `\u00xx` control-character escape. -/
theorem parseStrChars_uescape (m : Nat) (hm : m < 0x20) (X l rest : List Char)
    (hx : parseStrChars X = some (l, rest)) :
    parseStrChars ('\\' :: 'u' :: '0' :: '0' :: Nat.digitChar (m / 16) ::
      Nat.digitChar (m % 16) :: X) = some (Char.ofNat m :: l, rest) := by
  have h3 := parseHex_digitChar (m / 16) (by omega)
  have h4 := parseHex_digitChar (m % 16) (Nat.mod_lt _ (by omega))
  have h0 : parseHex '0' = some 0 := by decide
  have hv : ((0 * 16 + 0) * 16 + m / 16) * 16 + m % 16 = m := by omega
  conv_lhs => rw [parseStrChars.eq_def]
  simp only [h0, h3, h4, hv, if_true, if_false]
  rw [if_pos (Or.inl (by omega : m < 55296)), hx,
    if_neg (show ¬ '\\' = '"' by decide)]

/-- The string scanner undoes `escapeChar` on every character sequence,
stopping at the closing quote. -/
theorem parseStrChars_flatMap (l : List Char) (rest : List Char) :
    parseStrChars (l.flatMap escapeChar ++ '"' :: rest) = some (l, rest) := by
  induction l with
  | nil =>
    rw [show ([] : List Char).flatMap escapeChar ++ '"' :: rest = '"' :: rest by simp]
    conv_lhs => rw [parseStrChars.eq_def]
    simp
  | cons c l ih =>
    rw [List.flatMap_cons, List.append_assoc]
    by_cases h1 : c = '"'
    · subst h1
      rw [show escapeChar '"' = ['\\', '"'] from rfl, List.cons_append,
        List.cons_append, List.nil_append]
      exact parseStrChars_esc '"' '"' _ l rest (by decide) (by decide) ih
    · by_cases h2 : c = '\\'
      · subst h2
        rw [show escapeChar '\\' = ['\\', '\\'] from rfl, List.cons_append,
          List.cons_append, List.nil_append]
        exact parseStrChars_esc '\\' '\\' _ l rest (by decide) (by decide) ih
      · by_cases h3 : c = '\x08'
        · subst h3
          rw [show escapeChar '\x08' = ['\\', 'b'] from rfl, List.cons_append,
            List.cons_append, List.nil_append]
          exact parseStrChars_esc 'b' '\x08' _ l rest (by decide) (by decide) ih
        · by_cases h4 : c = '\x0c'
          · subst h4
            rw [show escapeChar '\x0c' = ['\\', 'f'] from rfl, List.cons_append,
              List.cons_append, List.nil_append]
            exact parseStrChars_esc 'f' '\x0c' _ l rest (by decide) (by decide) ih
          · by_cases h5 : c = '\n'
            · subst h5
              rw [show escapeChar '\n' = ['\\', 'n'] from rfl, List.cons_append,
                List.cons_append, List.nil_append]
              exact parseStrChars_esc 'n' '\n' _ l rest (by decide) (by decide) ih
            · by_cases h6 : c = '\r'
              · subst h6
                rw [show escapeChar '\r' = ['\\', 'r'] from rfl, List.cons_append,
                  List.cons_append, List.nil_append]
                exact parseStrChars_esc 'r' '\r' _ l rest (by decide) (by decide) ih
              · by_cases h7 : c = '\t'
                · subst h7
                  rw [show escapeChar '\t' = ['\\', 't'] from rfl, List.cons_append,
                    List.cons_append, List.nil_append]
                  exact parseStrChars_esc 't' '\t' _ l rest (by decide) (by decide) ih
                · by_cases h8 : c.toNat < 0x20
                  · rw [show escapeChar c =
                        ['\\', 'u', '0', '0', Nat.digitChar (c.toNat / 16),
                         Nat.digitChar (c.toNat % 16)] by
                      simp [escapeChar, h1, h2, h3, h4, h5, h6, h7, h8],
                      List.cons_append, List.cons_append, List.cons_append,
                      List.cons_append, List.cons_append, List.cons_append,
                      List.nil_append]
                    rw [parseStrChars_uescape c.toNat h8 _ l rest ih,
                      Char.ofNat_toNat]
                  · rw [show escapeChar c = [c] by
                      simp [escapeChar, h1, h2, h3, h4, h5, h6, h7, h8],
                      List.cons_append, List.nil_append]
                    exact parseStrChars_raw c _ l rest h1 h2 h8 ih

/-- Decimal digit characters are digits. -/
theorem digitChar_isDigit : ∀ d, d < 10 → (Nat.digitChar d).isDigit = true := by
  decide

/-- `digitVal` inverts `Nat.digitChar` on decimal digit values. -/
theorem digitVal_digitChar : ∀ d, d < 10 → digitVal (Nat.digitChar d) = d := by
  decide

/-- Nonzero decimal digits do not print as `'0'`. -/
theorem digitChar_ne_zero : ∀ d, d < 10 → d ≠ 0 → Nat.digitChar d ≠ '0' := by
  decide

/-- Every character of a decimal numeral is a digit. -/
theorem natNumChars_all_digits (n : Nat) :
    ∀ c ∈ natNumChars n, c.isDigit = true := by
  intro c hc
  unfold natNumChars at hc
  by_cases h : n = 0
  · rw [if_pos h] at hc
    simp at hc
    subst hc
    decide
  · rw [if_neg h] at hc
    simp only [List.mem_map, List.mem_reverse] at hc
    obtain ⟨d, hd, rfl⟩ := hc
    exact digitChar_isDigit d (Nat.digits_lt_base (by norm_num) hd)

/-- A decimal numeral is never empty. -/
theorem natNumChars_ne_nil (n : Nat) : natNumChars n ≠ [] := by
  unfold natNumChars
  by_cases h : n = 0
  · rw [if_pos h]; simp
  · rw [if_neg h]
    simp [Nat.digits_ne_nil_iff_ne_zero.mpr h]

/-- `takeWhile` splits cleanly around an all-true prefix followed by a
failing head. -/
theorem takeWhile_append_split {p : Char → Bool} {a b : List Char}
    (h : ∀ c ∈ a, p c = true) (hb : ∀ c, b.head? = some c → p c = false) :
    (a ++ b).takeWhile p = a ∧ (a ++ b).dropWhile p = b := by
  induction a with
  | nil =>
    simp only [List.nil_append]
    cases b with
    | nil => simp
    | cons c bs =>
      have := hb c rfl
      simp [List.takeWhile, List.dropWhile, this]
  | cons c a ih =>
    have hc : p c = true := h c (by simp)
    have ih' := ih (fun x hx => h x (by simp [hx]))
    simp [List.takeWhile, List.dropWhile, hc, ih'.1, ih'.2]

/-- Folding the scanner's accumulator over reversed digits recovers the value. -/
theorem foldl_mul_add_reverse (L : List Nat) :
    L.reverse.foldl (fun a d => a * 10 + d) 0 = Nat.ofDigits 10 L := by
  induction L with
  | nil => rfl
  | cons d L ih =>
    rw [List.reverse_cons, List.foldl_append, ih, Nat.ofDigits_cons]
    simp
    ring

/-- The scanner's fold over a printed numeral recovers the number. -/
theorem foldl_natNumChars (n : Nat) :
    (natNumChars n).foldl (fun a c => a * 10 + digitVal c) 0 = n := by
  unfold natNumChars
  by_cases h : n = 0
  · rw [if_pos h]; subst h; decide
  · rw [if_neg h]
    rw [show (Nat.digits 10 n).reverse.map Nat.digitChar =
        ((Nat.digits 10 n).reverse).map Nat.digitChar from rfl]
    rw [List.foldl_map]
    have hext : List.foldl (fun a d => a * 10 + digitVal (Nat.digitChar d)) 0
        (Nat.digits 10 n).reverse =
        List.foldl (fun a d => a * 10 + d) 0 (Nat.digits 10 n).reverse :=
      List.foldl_ext _ _ 0 (fun a d hd => by
        rw [digitVal_digitChar d (Nat.digits_lt_base (by norm_num)
          (List.mem_reverse.mp hd))])
    rw [hext, foldl_mul_add_reverse, Nat.ofDigits_digits]

/-- A printed numeral longer than one digit never starts with `'0'`. -/
theorem natNumChars_no_leading_zero (n : Nat) :
    ¬((natNumChars n).head? = some '0' ∧ 1 < (natNumChars n).length) := by
  by_cases h : n = 0
  · subst h; decide
  · rintro ⟨hhead, -⟩
    unfold natNumChars at hhead
    rw [if_neg h, List.head?_map, List.head?_reverse] at hhead
    have hne : Nat.digits 10 n ≠ [] := Nat.digits_ne_nil_iff_ne_zero.mpr h
    rw [List.getLast?_eq_getLast_of_ne_nil hne] at hhead
    simp only [Option.map_some', Option.some_inj] at hhead
    have hlt : (Nat.digits 10 n).getLast hne < 10 :=
      Nat.digits_lt_base (by norm_num) (List.getLast_mem hne)
    have hnz : (Nat.digits 10 n).getLast hne ≠ 0 :=
      Nat.getLast_digit_ne_zero 10 h
    exact digitChar_ne_zero _ hlt hnz hhead

/-- The continuation after a printed numeral does not extend the numeral. -/
def numStop (rest : List Char) : Prop :=
  ∀ c, rest.head? = some c →
    (c.isDigit = false ∧ c ≠ '.' ∧ c ≠ 'e' ∧ c ≠ 'E')

/-- The numeral scanner undoes decimal printing of a natural number. -/
theorem parseNatChars_natNum (n : Nat) (rest : List Char) (hstop : numStop rest) :
    parseNatChars (natNumChars n ++ rest) = some (n, rest) := by
  have hsplit := takeWhile_append_split (p := Char.isDigit)
    (natNumChars_all_digits n) (fun c hc => (hstop c hc).1)
  have hstop2 : ¬(rest.head? = some '.' ∨ rest.head? = some 'e' ∨
      rest.head? = some 'E') := by
    rintro (hc | hc | hc)
    · exact (hstop _ hc).2.1 rfl
    · exact (hstop _ hc).2.2.1 rfl
    · exact (hstop _ hc).2.2.2 rfl
  unfold parseNatChars
  simp only
  rw [hsplit.1, hsplit.2,
    if_neg (fun hEmp => natNumChars_ne_nil n (List.isEmpty_iff.mp hEmp)),
    if_neg (natNumChars_no_leading_zero n), if_neg hstop2,
    foldl_natNumChars n]

/-- `skipWs` leaves a non-whitespace head alone. -/
theorem skipWs_not_ws (c : Char) (cs : List Char) (h : isJsonWs c = false) :
    skipWs (c :: cs) = c :: cs := by
  conv_lhs => rw [skipWs.eq_def]
  simp [h]

/-- A digit head is not whitespace and none of the scanner's dispatch
characters. -/
theorem isDigit_dispatch (c : Char) (h : c.isDigit = true) :
    isJsonWs c = false ∧ c ≠ 'n' ∧ c ≠ '"' ∧ c ≠ '-' := by
  have hne : ∀ x : Char, x.isDigit = false → c ≠ x := by
    intro x hx e
    rw [e, hx] at h
    exact Bool.noConfusion h
  refine ⟨?_, hne 'n' (by decide), hne '"' (by decide), hne '-' (by decide)⟩
  have h1 : c ≠ ' ' := hne ' ' (by decide)
  have h2 : c ≠ '\t' := hne '\t' (by decide)
  have h3 : c ≠ '\n' := hne '\n' (by decide)
  have h4 : c ≠ '\r' := hne '\r' (by decide)
  simp [isJsonWs, h1, h2, h3, h4]

/-- The value scanner on a `null` literal. -/
theorem parseVal_null (f : Nat) (rest : List Char) :
    parseVal (f + 1) ("null".data ++ rest) = some (Json.null, rest) := rfl

/-- The value scanner on a serialised string literal. -/
theorem parseVal_string (f : Nat) (s : String) (rest : List Char) :
    parseVal (f + 1) (dumpStringChars s ++ rest) = some (Json.str s, rest) := by
  rw [show dumpStringChars s ++ rest =
      '"' :: (s.data.flatMap escapeChar ++ '"' :: rest) by
    simp [dumpStringChars]]
  conv_lhs => rw [parseVal.eq_def]
  simp [skipWs, isJsonWs, parseStrChars_flatMap s.data rest]

/-- The value scanner on a decimal natural numeral. -/
theorem parseVal_natNum (f : Nat) (n : Nat) (rest : List Char)
    (hstop : numStop rest) :
    parseVal (f + 1) (natNumChars n ++ rest) = some (Json.num (n : Int), rest) := by
  cases hn : natNumChars n with
  | nil => exact absurd hn (natNumChars_ne_nil n)
  | cons d ds =>
    have hd : d.isDigit = true := by
      apply natNumChars_all_digits n
      rw [hn]
      simp
    obtain ⟨hws, hn', hq, hm⟩ := isDigit_dispatch d hd
    rw [List.cons_append]
    have hws' : skipWs (d :: (ds ++ rest)) = d :: (ds ++ rest) :=
      skipWs_not_ws _ _ hws
    have hpn : parseNatChars (d :: (ds ++ rest)) = some (n, rest) := by
      rw [show d :: (ds ++ rest) = natNumChars n ++ rest by
        rw [hn, List.cons_append]]
      exact parseNatChars_natNum n rest hstop
    conv_lhs => rw [parseVal.eq_def]
    simp [hws', hn', hq, hm, hd, hpn]

/-- The value scanner on a decimal integer numeral. -/
theorem parseVal_int (f : Nat) (i : Int) (rest : List Char)
    (hstop : numStop rest) :
    parseVal (f + 1) (intNumChars i ++ rest) = some (Json.num i, rest) := by
  by_cases hi : i < 0
  · rw [show intNumChars i = '-' :: natNumChars i.natAbs by
      simp [intNumChars, hi], List.cons_append]
    have hpn : parseNatChars (natNumChars i.natAbs ++ rest) =
        some (i.natAbs, rest) := parseNatChars_natNum _ rest hstop
    have habs : (i.natAbs : Int) = -i :=
      Int.ofNat_natAbs_of_nonpos (le_of_lt hi)
    conv_lhs => rw [parseVal.eq_def]
    simp [skipWs_not_ws '-' _ (by decide), hpn, habs]
  · rw [show intNumChars i = natNumChars i.toNat by simp [intNumChars, hi]]
    rw [parseVal_natNum f i.toNat rest hstop]
    have : (i.toNat : Int) = i := Int.toNat_of_nonneg (by omega)
    rw [this]

/-- The value scanner on a serialised optional integer. -/
theorem parseVal_optInt (f : Nat) (o : Option Int) (rest : List Char)
    (hstop : numStop rest) :
    parseVal (f + 1) (dumpOptIntChars o ++ rest) =
      some (optIntToJson o, rest) := by
  cases o with
  | none => exact parseVal_null f rest
  | some i => exact parseVal_int f i rest hstop

/-- The value scanner ignores leading whitespace. -/
theorem parseVal_skip (g : Nat) (c : Char) (cs : List Char)
    (h : isJsonWs c = true) :
    parseVal (g + 1) (c :: cs) = parseVal (g + 1) cs := by
  have hsw : skipWs (c :: cs) = skipWs cs := by
    conv_lhs => rw [skipWs.eq_def]
    simp [h]
  conv_lhs => rw [parseVal.eq_def]
  conv_rhs => rw [parseVal.eq_def]
  simp only [hsw]

/-- A head character that cannot extend a numeral witnesses `numStop`. -/
theorem numStop_cons (c : Char) (cs : List Char) (h1 : c.isDigit = false)
    (h2 : c ≠ '.') (h3 : c ≠ 'e') (h4 : c ≠ 'E') : numStop (c :: cs) := by
  intro x hx
  simp only [List.head?_cons, Option.some_inj] at hx
  subst hx
  exact ⟨h1, h2, h3, h4⟩

/-- The member scanner on a final `"key": value` pair followed by `}`. -/
theorem parseMembers_last1 (g : Nat) (k : String) (vrest rest2 r2 : List Char)
    (v : Json) (hv : parseVal g vrest = some (v, rest2))
    (hsk : skipWs rest2 = '}' :: r2) :
    parseMembers (g + 1) (dumpStringChars k ++ (':' :: vrest)) =
      some ([(k, v)], r2) := by
  rw [show dumpStringChars k ++ (':' :: vrest) =
      '"' :: (k.data.flatMap escapeChar ++ '"' :: (':' :: vrest)) by
    simp [dumpStringChars]]
  have hstr := parseStrChars_flatMap k.data (':' :: vrest)
  conv_lhs => rw [parseMembers.eq_def]
  simp [skipWs_not_ws '"' _ (by decide), hstr,
    skipWs_not_ws ':' _ (by decide), hv, hsk]

/-- The member scanner on a `"key": value` pair followed by a comma and
further members. -/
theorem parseMembers_more1 (g : Nat) (k : String) (vrest rest2 r2 rest3 : List Char)
    (v : Json) (ms : List (String × Json))
    (hv : parseVal g vrest = some (v, rest2))
    (hsk : skipWs rest2 = ',' :: r2)
    (hms : parseMembers g r2 = some (ms, rest3)) :
    parseMembers (g + 1) (dumpStringChars k ++ (':' :: vrest)) =
      some ((k, v) :: ms, rest3) := by
  rw [show dumpStringChars k ++ (':' :: vrest) =
      '"' :: (k.data.flatMap escapeChar ++ '"' :: (':' :: vrest)) by
    simp [dumpStringChars]]
  have hstr := parseStrChars_flatMap k.data (':' :: vrest)
  conv_lhs => rw [parseMembers.eq_def]
  simp [skipWs_not_ws '"' _ (by decide), hstr,
    skipWs_not_ws ':' _ (by decide), hv, hsk, hms]

/-- The value scanner on a serialised non-empty object. -/
theorem parseVal_obj (g : Nat) (cs r2 rest : List Char) (ms : List (String × Json))
    (hsk : skipWs cs = '"' :: r2)
    (hms : parseMembers g ('"' :: r2) = some (ms, rest)) :
    parseVal (g + 1) ('{' :: cs) = some (Json.obj ms, rest) := by
  conv_lhs => rw [parseVal.eq_def]
  simp [skipWs_not_ws '{' _ (by decide), hsk, hms]

/-- The member scanner ignores leading whitespace. -/
theorem parseMembers_skip (g : Nat) (c : Char) (cs : List Char)
    (h : isJsonWs c = true) :
    parseMembers (g + 1) (c :: cs) = parseMembers (g + 1) cs := by
  have hsw : skipWs (c :: cs) = skipWs cs := by
    conv_lhs => rw [skipWs.eq_def]
    simp [h]
  conv_lhs => rw [parseMembers.eq_def]
  conv_rhs => rw [parseMembers.eq_def]
  simp only [hsw]

/-- The value scanner on one serialised `characters` entry. -/
theorem parseVal_entry (f : Nat) (e : CharEntry) (rest : List Char) :
    parseVal (f + 6) (dumpEntryChars e ++ rest) = some (entryToJson e, rest) := by
  have hv4 : parseVal (f + 1)
      (' ' :: (dumpOptIntChars e.duration_ms ++ ("\n    \x7d".data ++ rest))) =
      some (optIntToJson e.duration_ms, "\n    \x7d".data ++ rest) := by
    rw [parseVal_skip f ' ' _ (by decide)]
    exact parseVal_optInt f _ _
      (numStop_cons '\n' _ (by decide) (by decide) (by decide) (by decide))
  have hm4 : parseMembers (f + 2)
      ("\"duration_ms\": ".data ++
        (dumpOptIntChars e.duration_ms ++ ("\n    \x7d".data ++ rest))) =
      some ([("duration_ms", optIntToJson e.duration_ms)], rest) := by
    rw [show ("\"duration_ms\": ".data ++
        (dumpOptIntChars e.duration_ms ++ ("\n    \x7d".data ++ rest))) =
        dumpStringChars "duration_ms" ++ (':' :: (' ' ::
          (dumpOptIntChars e.duration_ms ++ ("\n    \x7d".data ++ rest)))) from rfl]
    exact parseMembers_last1 (f + 1) "duration_ms" _ _ _ _ hv4 rfl
  have hmw4 : parseMembers (f + 2)
      ("\n      \"duration_ms\": ".data ++
        (dumpOptIntChars e.duration_ms ++ ("\n    \x7d".data ++ rest))) =
      some ([("duration_ms", optIntToJson e.duration_ms)], rest) := by
    rw [show parseMembers (f + 2)
        ("\n      \"duration_ms\": ".data ++
          (dumpOptIntChars e.duration_ms ++ ("\n    \x7d".data ++ rest))) =
        parseMembers (f + 2)
        ("\"duration_ms\": ".data ++
          (dumpOptIntChars e.duration_ms ++ ("\n    \x7d".data ++ rest))) from rfl]
    exact hm4
  have hv3 : parseVal (f + 2)
      (' ' :: (dumpOptIntChars e.start_ms ++ (",\n      \"duration_ms\": ".data ++
        (dumpOptIntChars e.duration_ms ++ ("\n    \x7d".data ++ rest))))) =
      some (optIntToJson e.start_ms, ",\n      \"duration_ms\": ".data ++
        (dumpOptIntChars e.duration_ms ++ ("\n    \x7d".data ++ rest))) := by
    rw [parseVal_skip (f + 1) ' ' _ (by decide)]
    exact parseVal_optInt (f + 1) _ _
      (numStop_cons ',' _ (by decide) (by decide) (by decide) (by decide))
  have hm3 : parseMembers (f + 3)
      ("\"start_ms\": ".data ++ (dumpOptIntChars e.start_ms ++
        (",\n      \"duration_ms\": ".data ++
          (dumpOptIntChars e.duration_ms ++ ("\n    \x7d".data ++ rest))))) =
      some ([("start_ms", optIntToJson e.start_ms),
             ("duration_ms", optIntToJson e.duration_ms)], rest) := by
    rw [show ("\"start_ms\": ".data ++ (dumpOptIntChars e.start_ms ++
        (",\n      \"duration_ms\": ".data ++
          (dumpOptIntChars e.duration_ms ++ ("\n    \x7d".data ++ rest))))) =
        dumpStringChars "start_ms" ++ (':' :: (' ' ::
          (dumpOptIntChars e.start_ms ++ (",\n      \"duration_ms\": ".data ++
            (dumpOptIntChars e.duration_ms ++ ("\n    \x7d".data ++ rest)))))) from rfl]
    exact parseMembers_more1 (f + 2) "start_ms" _ _ _ _ _ _ hv3 rfl hmw4
  have hmw3 : parseMembers (f + 3)
      ("\n      \"start_ms\": ".data ++ (dumpOptIntChars e.start_ms ++
        (",\n      \"duration_ms\": ".data ++
          (dumpOptIntChars e.duration_ms ++ ("\n    \x7d".data ++ rest))))) =
      some ([("start_ms", optIntToJson e.start_ms),
             ("duration_ms", optIntToJson e.duration_ms)], rest) := by
    rw [show parseMembers (f + 3)
        ("\n      \"start_ms\": ".data ++ (dumpOptIntChars e.start_ms ++
          (",\n      \"duration_ms\": ".data ++
            (dumpOptIntChars e.duration_ms ++ ("\n    \x7d".data ++ rest))))) =
        parseMembers (f + 3)
        ("\"start_ms\": ".data ++ (dumpOptIntChars e.start_ms ++
          (",\n      \"duration_ms\": ".data ++
            (dumpOptIntChars e.duration_ms ++ ("\n    \x7d".data ++ rest))))) from rfl]
    exact hm3
  have hv2 : parseVal (f + 3)
      (' ' :: (dumpStringChars e.char ++ (",\n      \"start_ms\": ".data ++
        (dumpOptIntChars e.start_ms ++ (",\n      \"duration_ms\": ".data ++
          (dumpOptIntChars e.duration_ms ++ ("\n    \x7d".data ++ rest))))))) =
      some (Json.str e.char, ",\n      \"start_ms\": ".data ++
        (dumpOptIntChars e.start_ms ++ (",\n      \"duration_ms\": ".data ++
          (dumpOptIntChars e.duration_ms ++ ("\n    \x7d".data ++ rest))))) := by
    rw [parseVal_skip (f + 2) ' ' _ (by decide)]
    exact parseVal_string (f + 2) e.char _
  have hm2 : parseMembers (f + 4)
      ("\"char\": ".data ++ (dumpStringChars e.char ++
        (",\n      \"start_ms\": ".data ++ (dumpOptIntChars e.start_ms ++
          (",\n      \"duration_ms\": ".data ++
            (dumpOptIntChars e.duration_ms ++ ("\n    \x7d".data ++ rest))))))) =
      some ([("char", Json.str e.char),
             ("start_ms", optIntToJson e.start_ms),
             ("duration_ms", optIntToJson e.duration_ms)], rest) := by
    rw [show ("\"char\": ".data ++ (dumpStringChars e.char ++
        (",\n      \"start_ms\": ".data ++ (dumpOptIntChars e.start_ms ++
          (",\n      \"duration_ms\": ".data ++
            (dumpOptIntChars e.duration_ms ++ ("\n    \x7d".data ++ rest))))))) =
        dumpStringChars "char" ++ (':' :: (' ' ::
          (dumpStringChars e.char ++ (",\n      \"start_ms\": ".data ++
            (dumpOptIntChars e.start_ms ++ (",\n      \"duration_ms\": ".data ++
              (dumpOptIntChars e.duration_ms ++ ("\n    \x7d".data ++ rest)))))))) from rfl]
    exact parseMembers_more1 (f + 3) "char" _ _ _ _ _ _ hv2 rfl hmw3
  have hmw2 : parseMembers (f + 4)
      ("\n      \"char\": ".data ++ (dumpStringChars e.char ++
        (",\n      \"start_ms\": ".data ++ (dumpOptIntChars e.start_ms ++
          (",\n      \"duration_ms\": ".data ++
            (dumpOptIntChars e.duration_ms ++ ("\n    \x7d".data ++ rest))))))) =
      some ([("char", Json.str e.char),
             ("start_ms", optIntToJson e.start_ms),
             ("duration_ms", optIntToJson e.duration_ms)], rest) := by
    rw [show parseMembers (f + 4)
        ("\n      \"char\": ".data ++ (dumpStringChars e.char ++
          (",\n      \"start_ms\": ".data ++ (dumpOptIntChars e.start_ms ++
            (",\n      \"duration_ms\": ".data ++
              (dumpOptIntChars e.duration_ms ++ ("\n    \x7d".data ++ rest))))))) =
        parseMembers (f + 4)
        ("\"char\": ".data ++ (dumpStringChars e.char ++
          (",\n      \"start_ms\": ".data ++ (dumpOptIntChars e.start_ms ++
            (",\n      \"duration_ms\": ".data ++
              (dumpOptIntChars e.duration_ms ++ ("\n    \x7d".data ++ rest))))))) from rfl]
    exact hm2
  have hv1 : parseVal (f + 4)
      (' ' :: (natNumChars e.index ++ (",\n      \"char\": ".data ++
        (dumpStringChars e.char ++ (",\n      \"start_ms\": ".data ++
          (dumpOptIntChars e.start_ms ++ (",\n      \"duration_ms\": ".data ++
            (dumpOptIntChars e.duration_ms ++ ("\n    \x7d".data ++ rest))))))))) =
      some (Json.num (e.index : Int), ",\n      \"char\": ".data ++
        (dumpStringChars e.char ++ (",\n      \"start_ms\": ".data ++
          (dumpOptIntChars e.start_ms ++ (",\n      \"duration_ms\": ".data ++
            (dumpOptIntChars e.duration_ms ++ ("\n    \x7d".data ++ rest))))))) := by
    rw [parseVal_skip (f + 3) ' ' _ (by decide)]
    exact parseVal_natNum (f + 3) e.index _
      (numStop_cons ',' _ (by decide) (by decide) (by decide) (by decide))
  have hm1 : parseMembers (f + 5)
      ("\"index\": ".data ++ (natNumChars e.index ++ (",\n      \"char\": ".data ++
        (dumpStringChars e.char ++ (",\n      \"start_ms\": ".data ++
          (dumpOptIntChars e.start_ms ++ (",\n      \"duration_ms\": ".data ++
            (dumpOptIntChars e.duration_ms ++ ("\n    \x7d".data ++ rest))))))))) =
      some ([("index", Json.num (e.index : Int)),
             ("char", Json.str e.char),
             ("start_ms", optIntToJson e.start_ms),
             ("duration_ms", optIntToJson e.duration_ms)], rest) := by
    rw [show ("\"index\": ".data ++ (natNumChars e.index ++
        (",\n      \"char\": ".data ++ (dumpStringChars e.char ++
          (",\n      \"start_ms\": ".data ++ (dumpOptIntChars e.start_ms ++
            (",\n      \"duration_ms\": ".data ++
              (dumpOptIntChars e.duration_ms ++ ("\n    \x7d".data ++ rest))))))))) =
        dumpStringChars "index" ++ (':' :: (' ' ::
          (natNumChars e.index ++ (",\n      \"char\": ".data ++
            (dumpStringChars e.char ++ (",\n      \"start_ms\": ".data ++
              (dumpOptIntChars e.start_ms ++ (",\n      \"duration_ms\": ".data ++
                (dumpOptIntChars e.duration_ms ++
                  ("\n    \x7d".data ++ rest)))))))))) from rfl]
    exact parseMembers_more1 (f + 4) "index" _ _ _ _ _ _ hv1 rfl hmw2
  rw [show dumpEntryChars e ++ rest =
      '{' :: ("\n      \"index\": ".data ++ (natNumChars e.index ++
        (",\n      \"char\": ".data ++ (dumpStringChars e.char ++
          (",\n      \"start_ms\": ".data ++ (dumpOptIntChars e.start_ms ++
            (",\n      \"duration_ms\": ".data ++
              (dumpOptIntChars e.duration_ms ++ ("\n    \x7d".data ++ rest))))))))) from by
    simp [dumpEntryChars, List.append_assoc]]
  have hsk : skipWs ("\n      \"index\": ".data ++ (natNumChars e.index ++
        (",\n      \"char\": ".data ++ (dumpStringChars e.char ++
          (",\n      \"start_ms\": ".data ++ (dumpOptIntChars e.start_ms ++
            (",\n      \"duration_ms\": ".data ++
              (dumpOptIntChars e.duration_ms ++ ("\n    \x7d".data ++ rest))))))))) =
      '"' :: ("index\": ".data ++ (natNumChars e.index ++
        (",\n      \"char\": ".data ++ (dumpStringChars e.char ++
          (",\n      \"start_ms\": ".data ++ (dumpOptIntChars e.start_ms ++
            (",\n      \"duration_ms\": ".data ++
              (dumpOptIntChars e.duration_ms ++ ("\n    \x7d".data ++ rest))))))))) := rfl
  refine parseVal_obj (f + 5) _ _ rest _ hsk ?_
  exact hm1

/-- The item scanner ignores leading whitespace (given two spare fuel units). -/
theorem parseItems_skip (g : Nat) (c : Char) (cs : List Char)
    (h : isJsonWs c = true) :
    parseItems (g + 2) (c :: cs) = parseItems (g + 2) cs := by
  conv_lhs => rw [parseItems.eq_def]
  conv_rhs => rw [parseItems.eq_def]
  simp only [parseVal_skip g c cs h]

/-- The item scanner on a final array item followed by `]`. -/
theorem parseItems_last1 (g : Nat) (cs r1 r2 : List Char) (x : Json)
    (hv : parseVal g cs = some (x, r1))
    (hsk : skipWs r1 = ']' :: r2) :
    parseItems (g + 1) cs = some ([x], r2) := by
  conv_lhs => rw [parseItems.eq_def]
  simp [hv, hsk]

/-- The item scanner on an array item followed by a comma and further items. -/
theorem parseItems_more1 (g : Nat) (cs r1 r2 rest : List Char) (x : Json)
    (xs : List Json)
    (hv : parseVal g cs = some (x, r1))
    (hsk : skipWs r1 = ',' :: r2)
    (hxs : parseItems g r2 = some (xs, rest)) :
    parseItems (g + 1) cs = some (x :: xs, rest) := by
  conv_lhs => rw [parseItems.eq_def]
  simp [hv, hsk, hxs]

/-- The item scanner on the serialised entries of a non-empty `characters`
array, up to and including the closing `]`. -/
theorem parseItems_entries (es : List CharEntry) :
    ∀ (e : CharEntry) (f : Nat) (rest : List Char),
    parseItems (7 * es.length + (f + 7))
        (dumpEntryChars e ++ (dumpEntriesRest es ++ ("\n  ]".data ++ rest))) =
      some ((e :: es).map entryToJson, rest) := by
  induction es with
  | nil =>
    intro e f rest
    rw [show dumpEntryChars e ++ (dumpEntriesRest [] ++ ("\n  ]".data ++ rest)) =
        dumpEntryChars e ++ ("\n  ]".data ++ rest) from by
      simp [dumpEntriesRest]]
    rw [show 7 * ([] : List CharEntry).length + (f + 7) = (f + 6) + 1 from by
      simp]
    rw [List.map_cons, List.map_nil]
    exact parseItems_last1 (f + 6) _ _ rest (entryToJson e)
      (parseVal_entry f e _) rfl
  | cons e2 es2 ih =>
    intro e f rest
    rw [show dumpEntryChars e ++ (dumpEntriesRest (e2 :: es2) ++
        ("\n  ]".data ++ rest)) =
        dumpEntryChars e ++ (",\n    ".data ++ ((dumpEntryChars e2 ++
          (dumpEntriesRest es2 ++ ("\n  ]".data ++ rest))))) from by
      simp [dumpEntriesRest, List.append_assoc]]
    rw [show 7 * (e2 :: es2).length + (f + 7) =
        (7 * es2.length + (f + 13)) + 1 from by
      simp [List.length_cons]
      omega]
    rw [List.map_cons]
    have hv : parseVal (7 * es2.length + (f + 13))
        (dumpEntryChars e ++ (",\n    ".data ++ (dumpEntryChars e2 ++
          (dumpEntriesRest es2 ++ ("\n  ]".data ++ rest))))) =
        some (entryToJson e, ",\n    ".data ++ (dumpEntryChars e2 ++
          (dumpEntriesRest es2 ++ ("\n  ]".data ++ rest)))) :=
      parseVal_entry (7 * es2.length + (f + 7)) e _
    have hsk : skipWs (",\n    ".data ++ (dumpEntryChars e2 ++
        (dumpEntriesRest es2 ++ ("\n  ]".data ++ rest)))) =
        ',' :: ("\n    ".data ++ (dumpEntryChars e2 ++
          (dumpEntriesRest es2 ++ ("\n  ]".data ++ rest)))) := rfl
    have hxs : parseItems (7 * es2.length + (f + 13))
        ("\n    ".data ++ (dumpEntryChars e2 ++
          (dumpEntriesRest es2 ++ ("\n  ]".data ++ rest)))) =
        some ((e2 :: es2).map entryToJson, rest) := by
      rw [show ("\n    ".data ++ (dumpEntryChars e2 ++
          (dumpEntriesRest es2 ++ ("\n  ]".data ++ rest)))) =
          '\n' :: (' ' :: (' ' :: (' ' :: (' ' :: (dumpEntryChars e2 ++
            (dumpEntriesRest es2 ++ ("\n  ]".data ++ rest))))))) from rfl]
      rw [show (7 * es2.length + (f + 13)) = (7 * es2.length + (f + 11)) + 2
        from by omega]
      rw [parseItems_skip _ _ _ (by decide), parseItems_skip _ _ _ (by decide),
        parseItems_skip _ _ _ (by decide), parseItems_skip _ _ _ (by decide),
        parseItems_skip _ _ _ (by decide)]
      rw [show (7 * es2.length + (f + 11)) + 2 =
          7 * es2.length + ((f + 6) + 7) from by omega]
      exact ih e2 (f + 6) rest
    exact parseItems_more1 (7 * es2.length + (f + 13)) _ _ _ _ _ _ hv hsk hxs


/-- The value scanner on a serialised non-empty array whose first item is an
object. -/
theorem parseVal_arr1 (g : Nat) (cs r2 rest : List Char) (xs : List Json)
    (hsk : skipWs cs = '{' :: r2)
    (hxs : parseItems g ('{' :: r2) = some (xs, rest)) :
    parseVal (g + 1) ('[' :: cs) = some (Json.arr xs, rest) := by
  conv_lhs => rw [parseVal.eq_def]
  simp [skipWs_not_ws '[' _ (by decide), hsk, hxs]

/-- The value scanner on the serialised `characters` array. -/
theorem parseVal_entriesArr (f : Nat) (es : List CharEntry) (rest : List Char) :
    parseVal (7 * es.length + (f + 9)) (dumpCharsArray es ++ rest) =
      some (Json.arr (es.map entryToJson), rest) := by
  cases es with
  | nil =>
    rw [show dumpCharsArray [] ++ rest = '[' :: (']' :: rest) from rfl]
    rw [show 7 * ([] : List CharEntry).length + (f + 9) = (f + 8) + 1 from by
      simp]
    conv_lhs => rw [parseVal.eq_def]
    simp [skipWs, isJsonWs]
  | cons e es2 =>
    rw [show dumpCharsArray (e :: es2) ++ rest =
        '[' :: ('\n' :: (' ' :: (' ' :: (' ' :: (' ' :: (dumpEntryChars e ++
          (dumpEntriesRest es2 ++ ("\n  ]".data ++ rest)))))))) from by
      simp [dumpCharsArray, dumpEntriesChars, List.append_assoc]]
    rw [show 7 * (e :: es2).length + (f + 9) =
        (7 * es2.length + (f + 15)) + 1 from by
      simp [List.length_cons]
      omega]
    have hsk1 : skipWs ('\n' :: (' ' :: (' ' :: (' ' :: (' ' ::
        (dumpEntryChars e ++ (dumpEntriesRest es2 ++ ("\n  ]".data ++ rest)))))))) =
        '{' :: ("\n      \"index\": ".data ++ (natNumChars e.index ++
          (",\n      \"char\": ".data ++ (dumpStringChars e.char ++
            (",\n      \"start_ms\": ".data ++ (dumpOptIntChars e.start_ms ++
              (",\n      \"duration_ms\": ".data ++
                (dumpOptIntChars e.duration_ms ++ ("\n    \x7d".data ++
                  (dumpEntriesRest es2 ++ ("\n  ]".data ++ rest))))))))))) := by
      rw [show skipWs ('\n' :: (' ' :: (' ' :: (' ' :: (' ' ::
          (dumpEntryChars e ++ (dumpEntriesRest es2 ++ ("\n  ]".data ++ rest)))))))) =
          skipWs (dumpEntryChars e ++ (dumpEntriesRest es2 ++
            ("\n  ]".data ++ rest))) from rfl]
      rw [show dumpEntryChars e ++ (dumpEntriesRest es2 ++ ("\n  ]".data ++ rest)) =
          '{' :: ("\n      \"index\": ".data ++ (natNumChars e.index ++
          (",\n      \"char\": ".data ++ (dumpStringChars e.char ++
            (",\n      \"start_ms\": ".data ++ (dumpOptIntChars e.start_ms ++
              (",\n      \"duration_ms\": ".data ++
                (dumpOptIntChars e.duration_ms ++ ("\n    \x7d".data ++
                  (dumpEntriesRest es2 ++ ("\n  ]".data ++ rest))))))))))) from by
        simp [dumpEntryChars, List.append_assoc]]
      exact skipWs_not_ws '{' _ (by decide)
    have hitems := parseItems_entries es2 e (f + 8) rest
    rw [show 7 * es2.length + ((f + 8) + 7) = 7 * es2.length + (f + 15) from by
      omega] at hitems
    rw [show dumpEntryChars e ++ (dumpEntriesRest es2 ++ ("\n  ]".data ++ rest)) =
        '{' :: ("\n      \"index\": ".data ++ (natNumChars e.index ++
          (",\n      \"char\": ".data ++ (dumpStringChars e.char ++
            (",\n      \"start_ms\": ".data ++ (dumpOptIntChars e.start_ms ++
              (",\n      \"duration_ms\": ".data ++
                (dumpOptIntChars e.duration_ms ++ ("\n    \x7d".data ++
                  (dumpEntriesRest es2 ++ ("\n  ]".data ++ rest))))))))))) from by
      simp [dumpEntryChars, List.append_assoc]] at hitems
    rw [List.map_cons]
    exact parseVal_arr1 (7 * es2.length + (f + 15)) _ _ rest _ hsk1 hitems

/-- The value scanner on a fully serialised alignment record. -/
theorem parseVal_record (f : Nat) (r : AlignmentRecord) (rest : List Char) :
    parseVal (7 * r.characters.length + (f + 16)) (dumpRecordChars r ++ rest) =
      some (recordToJson r, rest) := by
  have hv6 : parseVal (7 * r.characters.length + (f + 9)) (' ' :: (dumpCharsArray r.characters ++ ("\n\x7d".data ++ rest))) =
      some (Json.arr (r.characters.map entryToJson), ("\n\x7d".data ++ rest)) := by
    rw [show (7 * r.characters.length + (f + 9)) = (7 * r.characters.length + (f + 8)) + 1 from by omega]
    rw [parseVal_skip _ ' ' _ (by decide)]
    rw [show (7 * r.characters.length + (f + 8)) + 1 = 7 * r.characters.length + (f + 9) from by omega]
    exact parseVal_entriesArr f r.characters ("\n\x7d".data ++ rest)
  have hm6 : parseMembers (7 * r.characters.length + (f + 10)) ("\"characters\": ".data ++ (dumpCharsArray r.characters ++ ("\n\x7d".data ++ rest))) =
      some ([("characters", Json.arr (r.characters.map entryToJson))], rest) := by
    rw [show ("\"characters\": ".data ++ (dumpCharsArray r.characters ++ ("\n\x7d".data ++ rest))) =
        dumpStringChars "characters" ++ (':' :: (' ' :: (dumpCharsArray r.characters ++ ("\n\x7d".data ++ rest)))) from rfl]
    rw [show (7 * r.characters.length + (f + 10)) = (7 * r.characters.length + (f + 9)) + 1 from by omega]
    exact parseMembers_last1 (7 * r.characters.length + (f + 9)) "characters" _ _ _ _ hv6 rfl
  have hmw6 : parseMembers (7 * r.characters.length + (f + 10)) ("\n  \"characters\": ".data ++ (dumpCharsArray r.characters ++ ("\n\x7d".data ++ rest))) =
      some ([("characters", Json.arr (r.characters.map entryToJson))], rest) := by
    rw [show parseMembers (7 * r.characters.length + (f + 10)) ("\n  \"characters\": ".data ++ (dumpCharsArray r.characters ++ ("\n\x7d".data ++ rest))) =
        parseMembers (7 * r.characters.length + (f + 10)) ("\"characters\": ".data ++ (dumpCharsArray r.characters ++ ("\n\x7d".data ++ rest))) from rfl]
    exact hm6
  have hv5 : parseVal (7 * r.characters.length + (f + 10)) (' ' :: (natNumChars r.char_count ++ (",\n  \"characters\": ".data ++ (dumpCharsArray r.characters ++ ("\n\x7d".data ++ rest))))) =
      some (Json.num (r.char_count : Int), (",\n  \"characters\": ".data ++ (dumpCharsArray r.characters ++ ("\n\x7d".data ++ rest)))) := by
    rw [show (7 * r.characters.length + (f + 10)) = (7 * r.characters.length + (f + 9)) + 1 from by omega]
    rw [parseVal_skip _ ' ' _ (by decide)]
    exact parseVal_natNum (7 * r.characters.length + (f + 9)) r.char_count _
      (numStop_cons ',' _ (by decide) (by decide) (by decide) (by decide))
  have hm5 : parseMembers (7 * r.characters.length + (f + 11)) ("\"char_count\": ".data ++ (natNumChars r.char_count ++ (",\n  \"characters\": ".data ++ (dumpCharsArray r.characters ++ ("\n\x7d".data ++ rest))))) =
      some ([("char_count", Json.num (r.char_count : Int)), ("characters", Json.arr (r.characters.map entryToJson))], rest) := by
    rw [show ("\"char_count\": ".data ++ (natNumChars r.char_count ++ (",\n  \"characters\": ".data ++ (dumpCharsArray r.characters ++ ("\n\x7d".data ++ rest))))) =
        dumpStringChars "char_count" ++ (':' :: (' ' :: (natNumChars r.char_count ++ (",\n  \"characters\": ".data ++ (dumpCharsArray r.characters ++ ("\n\x7d".data ++ rest)))))) from rfl]
    rw [show (7 * r.characters.length + (f + 11)) = (7 * r.characters.length + (f + 10)) + 1 from by omega]
    exact parseMembers_more1 (7 * r.characters.length + (f + 10)) "char_count" _ _ _ _ _ _ hv5 rfl hmw6
  have hmw5 : parseMembers (7 * r.characters.length + (f + 11)) ("\n  \"char_count\": ".data ++ (natNumChars r.char_count ++ (",\n  \"characters\": ".data ++ (dumpCharsArray r.characters ++ ("\n\x7d".data ++ rest))))) =
      some ([("char_count", Json.num (r.char_count : Int)), ("characters", Json.arr (r.characters.map entryToJson))], rest) := by
    rw [show parseMembers (7 * r.characters.length + (f + 11)) ("\n  \"char_count\": ".data ++ (natNumChars r.char_count ++ (",\n  \"characters\": ".data ++ (dumpCharsArray r.characters ++ ("\n\x7d".data ++ rest))))) =
        parseMembers (7 * r.characters.length + (f + 11)) ("\"char_count\": ".data ++ (natNumChars r.char_count ++ (",\n  \"characters\": ".data ++ (dumpCharsArray r.characters ++ ("\n\x7d".data ++ rest))))) from rfl]
    exact hm5
  have hv4 : parseVal (7 * r.characters.length + (f + 11)) (' ' :: (intNumChars r.total_duration_ms ++ (",\n  \"char_count\": ".data ++ (natNumChars r.char_count ++ (",\n  \"characters\": ".data ++ (dumpCharsArray r.characters ++ ("\n\x7d".data ++ rest))))))) =
      some (Json.num r.total_duration_ms, (",\n  \"char_count\": ".data ++ (natNumChars r.char_count ++ (",\n  \"characters\": ".data ++ (dumpCharsArray r.characters ++ ("\n\x7d".data ++ rest)))))) := by
    rw [show (7 * r.characters.length + (f + 11)) = (7 * r.characters.length + (f + 10)) + 1 from by omega]
    rw [parseVal_skip _ ' ' _ (by decide)]
    exact parseVal_int (7 * r.characters.length + (f + 10)) r.total_duration_ms _
      (numStop_cons ',' _ (by decide) (by decide) (by decide) (by decide))
  have hm4 : parseMembers (7 * r.characters.length + (f + 12)) ("\"total_duration_ms\": ".data ++ (intNumChars r.total_duration_ms ++ (",\n  \"char_count\": ".data ++ (natNumChars r.char_count ++ (",\n  \"characters\": ".data ++ (dumpCharsArray r.characters ++ ("\n\x7d".data ++ rest))))))) =
      some ([("total_duration_ms", Json.num r.total_duration_ms), ("char_count", Json.num (r.char_count : Int)), ("characters", Json.arr (r.characters.map entryToJson))], rest) := by
    rw [show ("\"total_duration_ms\": ".data ++ (intNumChars r.total_duration_ms ++ (",\n  \"char_count\": ".data ++ (natNumChars r.char_count ++ (",\n  \"characters\": ".data ++ (dumpCharsArray r.characters ++ ("\n\x7d".data ++ rest))))))) =
        dumpStringChars "total_duration_ms" ++ (':' :: (' ' :: (intNumChars r.total_duration_ms ++ (",\n  \"char_count\": ".data ++ (natNumChars r.char_count ++ (",\n  \"characters\": ".data ++ (dumpCharsArray r.characters ++ ("\n\x7d".data ++ rest)))))))) from rfl]
    rw [show (7 * r.characters.length + (f + 12)) = (7 * r.characters.length + (f + 11)) + 1 from by omega]
    exact parseMembers_more1 (7 * r.characters.length + (f + 11)) "total_duration_ms" _ _ _ _ _ _ hv4 rfl hmw5
  have hmw4 : parseMembers (7 * r.characters.length + (f + 12)) ("\n  \"total_duration_ms\": ".data ++ (intNumChars r.total_duration_ms ++ (",\n  \"char_count\": ".data ++ (natNumChars r.char_count ++ (",\n  \"characters\": ".data ++ (dumpCharsArray r.characters ++ ("\n\x7d".data ++ rest))))))) =
      some ([("total_duration_ms", Json.num r.total_duration_ms), ("char_count", Json.num (r.char_count : Int)), ("characters", Json.arr (r.characters.map entryToJson))], rest) := by
    rw [show parseMembers (7 * r.characters.length + (f + 12)) ("\n  \"total_duration_ms\": ".data ++ (intNumChars r.total_duration_ms ++ (",\n  \"char_count\": ".data ++ (natNumChars r.char_count ++ (",\n  \"characters\": ".data ++ (dumpCharsArray r.characters ++ ("\n\x7d".data ++ rest))))))) =
        parseMembers (7 * r.characters.length + (f + 12)) ("\"total_duration_ms\": ".data ++ (intNumChars r.total_duration_ms ++ (",\n  \"char_count\": ".data ++ (natNumChars r.char_count ++ (",\n  \"characters\": ".data ++ (dumpCharsArray r.characters ++ ("\n\x7d".data ++ rest))))))) from rfl]
    exact hm4
  have hv3 : parseVal (7 * r.characters.length + (f + 12)) (' ' :: (natNumChars r.text_length ++ (",\n  \"total_duration_ms\": ".data ++ (intNumChars r.total_duration_ms ++ (",\n  \"char_count\": ".data ++ (natNumChars r.char_count ++ (",\n  \"characters\": ".data ++ (dumpCharsArray r.characters ++ ("\n\x7d".data ++ rest))))))))) =
      some (Json.num (r.text_length : Int), (",\n  \"total_duration_ms\": ".data ++ (intNumChars r.total_duration_ms ++ (",\n  \"char_count\": ".data ++ (natNumChars r.char_count ++ (",\n  \"characters\": ".data ++ (dumpCharsArray r.characters ++ ("\n\x7d".data ++ rest)))))))) := by
    rw [show (7 * r.characters.length + (f + 12)) = (7 * r.characters.length + (f + 11)) + 1 from by omega]
    rw [parseVal_skip _ ' ' _ (by decide)]
    exact parseVal_natNum (7 * r.characters.length + (f + 11)) r.text_length _
      (numStop_cons ',' _ (by decide) (by decide) (by decide) (by decide))
  have hm3 : parseMembers (7 * r.characters.length + (f + 13)) ("\"text_length\": ".data ++ (natNumChars r.text_length ++ (",\n  \"total_duration_ms\": ".data ++ (intNumChars r.total_duration_ms ++ (",\n  \"char_count\": ".data ++ (natNumChars r.char_count ++ (",\n  \"characters\": ".data ++ (dumpCharsArray r.characters ++ ("\n\x7d".data ++ rest))))))))) =
      some ([("text_length", Json.num (r.text_length : Int)), ("total_duration_ms", Json.num r.total_duration_ms), ("char_count", Json.num (r.char_count : Int)), ("characters", Json.arr (r.characters.map entryToJson))], rest) := by
    rw [show ("\"text_length\": ".data ++ (natNumChars r.text_length ++ (",\n  \"total_duration_ms\": ".data ++ (intNumChars r.total_duration_ms ++ (",\n  \"char_count\": ".data ++ (natNumChars r.char_count ++ (",\n  \"characters\": ".data ++ (dumpCharsArray r.characters ++ ("\n\x7d".data ++ rest))))))))) =
        dumpStringChars "text_length" ++ (':' :: (' ' :: (natNumChars r.text_length ++ (",\n  \"total_duration_ms\": ".data ++ (intNumChars r.total_duration_ms ++ (",\n  \"char_count\": ".data ++ (natNumChars r.char_count ++ (",\n  \"characters\": ".data ++ (dumpCharsArray r.characters ++ ("\n\x7d".data ++ rest)))))))))) from rfl]
    rw [show (7 * r.characters.length + (f + 13)) = (7 * r.characters.length + (f + 12)) + 1 from by omega]
    exact parseMembers_more1 (7 * r.characters.length + (f + 12)) "text_length" _ _ _ _ _ _ hv3 rfl hmw4
  have hmw3 : parseMembers (7 * r.characters.length + (f + 13)) ("\n  \"text_length\": ".data ++ (natNumChars r.text_length ++ (",\n  \"total_duration_ms\": ".data ++ (intNumChars r.total_duration_ms ++ (",\n  \"char_count\": ".data ++ (natNumChars r.char_count ++ (",\n  \"characters\": ".data ++ (dumpCharsArray r.characters ++ ("\n\x7d".data ++ rest))))))))) =
      some ([("text_length", Json.num (r.text_length : Int)), ("total_duration_ms", Json.num r.total_duration_ms), ("char_count", Json.num (r.char_count : Int)), ("characters", Json.arr (r.characters.map entryToJson))], rest) := by
    rw [show parseMembers (7 * r.characters.length + (f + 13)) ("\n  \"text_length\": ".data ++ (natNumChars r.text_length ++ (",\n  \"total_duration_ms\": ".data ++ (intNumChars r.total_duration_ms ++ (",\n  \"char_count\": ".data ++ (natNumChars r.char_count ++ (",\n  \"characters\": ".data ++ (dumpCharsArray r.characters ++ ("\n\x7d".data ++ rest))))))))) =
        parseMembers (7 * r.characters.length + (f + 13)) ("\"text_length\": ".data ++ (natNumChars r.text_length ++ (",\n  \"total_duration_ms\": ".data ++ (intNumChars r.total_duration_ms ++ (",\n  \"char_count\": ".data ++ (natNumChars r.char_count ++ (",\n  \"characters\": ".data ++ (dumpCharsArray r.characters ++ ("\n\x7d".data ++ rest))))))))) from rfl]
    exact hm3
  have hv2 : parseVal (7 * r.characters.length + (f + 13)) (' ' :: (dumpStringChars r.text ++ (",\n  \"text_length\": ".data ++ (natNumChars r.text_length ++ (",\n  \"total_duration_ms\": ".data ++ (intNumChars r.total_duration_ms ++ (",\n  \"char_count\": ".data ++ (natNumChars r.char_count ++ (",\n  \"characters\": ".data ++ (dumpCharsArray r.characters ++ ("\n\x7d".data ++ rest))))))))))) =
      some (Json.str r.text, (",\n  \"text_length\": ".data ++ (natNumChars r.text_length ++ (",\n  \"total_duration_ms\": ".data ++ (intNumChars r.total_duration_ms ++ (",\n  \"char_count\": ".data ++ (natNumChars r.char_count ++ (",\n  \"characters\": ".data ++ (dumpCharsArray r.characters ++ ("\n\x7d".data ++ rest)))))))))) := by
    rw [show (7 * r.characters.length + (f + 13)) = (7 * r.characters.length + (f + 12)) + 1 from by omega]
    rw [parseVal_skip _ ' ' _ (by decide)]
    exact parseVal_string (7 * r.characters.length + (f + 12)) r.text _
  have hm2 : parseMembers (7 * r.characters.length + (f + 14)) ("\"text\": ".data ++ (dumpStringChars r.text ++ (",\n  \"text_length\": ".data ++ (natNumChars r.text_length ++ (",\n  \"total_duration_ms\": ".data ++ (intNumChars r.total_duration_ms ++ (",\n  \"char_count\": ".data ++ (natNumChars r.char_count ++ (",\n  \"characters\": ".data ++ (dumpCharsArray r.characters ++ ("\n\x7d".data ++ rest))))))))))) =
      some ([("text", Json.str r.text), ("text_length", Json.num (r.text_length : Int)), ("total_duration_ms", Json.num r.total_duration_ms), ("char_count", Json.num (r.char_count : Int)), ("characters", Json.arr (r.characters.map entryToJson))], rest) := by
    rw [show ("\"text\": ".data ++ (dumpStringChars r.text ++ (",\n  \"text_length\": ".data ++ (natNumChars r.text_length ++ (",\n  \"total_duration_ms\": ".data ++ (intNumChars r.total_duration_ms ++ (",\n  \"char_count\": ".data ++ (natNumChars r.char_count ++ (",\n  \"characters\": ".data ++ (dumpCharsArray r.characters ++ ("\n\x7d".data ++ rest))))))))))) =
        dumpStringChars "text" ++ (':' :: (' ' :: (dumpStringChars r.text ++ (",\n  \"text_length\": ".data ++ (natNumChars r.text_length ++ (",\n  \"total_duration_ms\": ".data ++ (intNumChars r.total_duration_ms ++ (",\n  \"char_count\": ".data ++ (natNumChars r.char_count ++ (",\n  \"characters\": ".data ++ (dumpCharsArray r.characters ++ ("\n\x7d".data ++ rest)))))))))))) from rfl]
    rw [show (7 * r.characters.length + (f + 14)) = (7 * r.characters.length + (f + 13)) + 1 from by omega]
    exact parseMembers_more1 (7 * r.characters.length + (f + 13)) "text" _ _ _ _ _ _ hv2 rfl hmw3
  have hmw2 : parseMembers (7 * r.characters.length + (f + 14)) ("\n  \"text\": ".data ++ (dumpStringChars r.text ++ (",\n  \"text_length\": ".data ++ (natNumChars r.text_length ++ (",\n  \"total_duration_ms\": ".data ++ (intNumChars r.total_duration_ms ++ (",\n  \"char_count\": ".data ++ (natNumChars r.char_count ++ (",\n  \"characters\": ".data ++ (dumpCharsArray r.characters ++ ("\n\x7d".data ++ rest))))))))))) =
      some ([("text", Json.str r.text), ("text_length", Json.num (r.text_length : Int)), ("total_duration_ms", Json.num r.total_duration_ms), ("char_count", Json.num (r.char_count : Int)), ("characters", Json.arr (r.characters.map entryToJson))], rest) := by
    rw [show parseMembers (7 * r.characters.length + (f + 14)) ("\n  \"text\": ".data ++ (dumpStringChars r.text ++ (",\n  \"text_length\": ".data ++ (natNumChars r.text_length ++ (",\n  \"total_duration_ms\": ".data ++ (intNumChars r.total_duration_ms ++ (",\n  \"char_count\": ".data ++ (natNumChars r.char_count ++ (",\n  \"characters\": ".data ++ (dumpCharsArray r.characters ++ ("\n\x7d".data ++ rest))))))))))) =
        parseMembers (7 * r.characters.length + (f + 14)) ("\"text\": ".data ++ (dumpStringChars r.text ++ (",\n  \"text_length\": ".data ++ (natNumChars r.text_length ++ (",\n  \"total_duration_ms\": ".data ++ (intNumChars r.total_duration_ms ++ (",\n  \"char_count\": ".data ++ (natNumChars r.char_count ++ (",\n  \"characters\": ".data ++ (dumpCharsArray r.characters ++ ("\n\x7d".data ++ rest))))))))))) from rfl]
    exact hm2
  have hv1 : parseVal (7 * r.characters.length + (f + 14)) (' ' :: (dumpStringChars r.timestamp ++ (",\n  \"text\": ".data ++ (dumpStringChars r.text ++ (",\n  \"text_length\": ".data ++ (natNumChars r.text_length ++ (",\n  \"total_duration_ms\": ".data ++ (intNumChars r.total_duration_ms ++ (",\n  \"char_count\": ".data ++ (natNumChars r.char_count ++ (",\n  \"characters\": ".data ++ (dumpCharsArray r.characters ++ ("\n\x7d".data ++ rest))))))))))))) =
      some (Json.str r.timestamp, (",\n  \"text\": ".data ++ (dumpStringChars r.text ++ (",\n  \"text_length\": ".data ++ (natNumChars r.text_length ++ (",\n  \"total_duration_ms\": ".data ++ (intNumChars r.total_duration_ms ++ (",\n  \"char_count\": ".data ++ (natNumChars r.char_count ++ (",\n  \"characters\": ".data ++ (dumpCharsArray r.characters ++ ("\n\x7d".data ++ rest)))))))))))) := by
    rw [show (7 * r.characters.length + (f + 14)) = (7 * r.characters.length + (f + 13)) + 1 from by omega]
    rw [parseVal_skip _ ' ' _ (by decide)]
    exact parseVal_string (7 * r.characters.length + (f + 13)) r.timestamp _
  have hm1 : parseMembers (7 * r.characters.length + (f + 15)) ("\"timestamp\": ".data ++ (dumpStringChars r.timestamp ++ (",\n  \"text\": ".data ++ (dumpStringChars r.text ++ (",\n  \"text_length\": ".data ++ (natNumChars r.text_length ++ (",\n  \"total_duration_ms\": ".data ++ (intNumChars r.total_duration_ms ++ (",\n  \"char_count\": ".data ++ (natNumChars r.char_count ++ (",\n  \"characters\": ".data ++ (dumpCharsArray r.characters ++ ("\n\x7d".data ++ rest))))))))))))) =
      some ([("timestamp", Json.str r.timestamp), ("text", Json.str r.text), ("text_length", Json.num (r.text_length : Int)), ("total_duration_ms", Json.num r.total_duration_ms), ("char_count", Json.num (r.char_count : Int)), ("characters", Json.arr (r.characters.map entryToJson))], rest) := by
    rw [show ("\"timestamp\": ".data ++ (dumpStringChars r.timestamp ++ (",\n  \"text\": ".data ++ (dumpStringChars r.text ++ (",\n  \"text_length\": ".data ++ (natNumChars r.text_length ++ (",\n  \"total_duration_ms\": ".data ++ (intNumChars r.total_duration_ms ++ (",\n  \"char_count\": ".data ++ (natNumChars r.char_count ++ (",\n  \"characters\": ".data ++ (dumpCharsArray r.characters ++ ("\n\x7d".data ++ rest))))))))))))) =
        dumpStringChars "timestamp" ++ (':' :: (' ' :: (dumpStringChars r.timestamp ++ (",\n  \"text\": ".data ++ (dumpStringChars r.text ++ (",\n  \"text_length\": ".data ++ (natNumChars r.text_length ++ (",\n  \"total_duration_ms\": ".data ++ (intNumChars r.total_duration_ms ++ (",\n  \"char_count\": ".data ++ (natNumChars r.char_count ++ (",\n  \"characters\": ".data ++ (dumpCharsArray r.characters ++ ("\n\x7d".data ++ rest)))))))))))))) from rfl]
    rw [show (7 * r.characters.length + (f + 15)) = (7 * r.characters.length + (f + 14)) + 1 from by omega]
    exact parseMembers_more1 (7 * r.characters.length + (f + 14)) "timestamp" _ _ _ _ _ _ hv1 rfl hmw2
  rw [show dumpRecordChars r ++ rest =
      '{' :: ("\n  \"timestamp\": ".data ++ (dumpStringChars r.timestamp ++ (",\n  \"text\": ".data ++ (dumpStringChars r.text ++ (",\n  \"text_length\": ".data ++ (natNumChars r.text_length ++ (",\n  \"total_duration_ms\": ".data ++ (intNumChars r.total_duration_ms ++ (",\n  \"char_count\": ".data ++ (natNumChars r.char_count ++ (",\n  \"characters\": ".data ++ (dumpCharsArray r.characters ++ ("\n\x7d".data ++ rest))))))))))))) from by
    simp [dumpRecordChars, List.append_assoc]]
  rw [show 7 * r.characters.length + (f + 16) = (7 * r.characters.length + (f + 15)) + 1 from by omega]
  have hskTop : skipWs ("\n  \"timestamp\": ".data ++ (dumpStringChars r.timestamp ++ (",\n  \"text\": ".data ++ (dumpStringChars r.text ++ (",\n  \"text_length\": ".data ++ (natNumChars r.text_length ++ (",\n  \"total_duration_ms\": ".data ++ (intNumChars r.total_duration_ms ++ (",\n  \"char_count\": ".data ++ (natNumChars r.char_count ++ (",\n  \"characters\": ".data ++ (dumpCharsArray r.characters ++ ("\n\x7d".data ++ rest))))))))))))) =
      '"' :: ("timestamp\": ".data ++ (dumpStringChars r.timestamp ++ (",\n  \"text\": ".data ++ (dumpStringChars r.text ++ (",\n  \"text_length\": ".data ++ (natNumChars r.text_length ++ (",\n  \"total_duration_ms\": ".data ++ (intNumChars r.total_duration_ms ++ (",\n  \"char_count\": ".data ++ (natNumChars r.char_count ++ (",\n  \"characters\": ".data ++ (dumpCharsArray r.characters ++ ("\n\x7d".data ++ rest))))))))))))) := rfl
  refine parseVal_obj (7 * r.characters.length + (f + 15)) _ _ rest _ hskTop ?_
  exact hm1


/-- Each serialised entry contributes at least seven characters. -/
theorem len_dumpEntriesRest (es : List CharEntry) :
    7 * es.length ≤ (dumpEntriesRest es).length := by
  induction es with
  | nil => simp [dumpEntriesRest]
  | cons e es ih =>
    simp only [dumpEntriesRest, List.length_append, List.length_cons]
    simp only [dumpEntryChars, List.length_append]
    simp
    omega

/-- The serialised array is long enough to pay for the scanner's fuel. -/
theorem len_dumpCharsArray (es : List CharEntry) :
    7 * es.length ≤ (dumpCharsArray es).length := by
  cases es with
  | nil => simp [dumpCharsArray]
  | cons e es2 =>
    have h := len_dumpEntriesRest es2
    simp only [dumpCharsArray, dumpEntriesChars, List.length_append,
      List.length_cons]
    simp
    omega

/-- The serialised record is long enough to pay for the scanner's fuel. -/
theorem len_dumpRecordChars (r : AlignmentRecord) :
    7 * r.characters.length + 7 ≤ (dumpRecordChars r).length := by
  have h := len_dumpCharsArray r.characters
  simp only [dumpRecordChars, List.length_append]
  simp
  omega

/-- `json.load` undoes `json.dump` on every alignment record: the round trip
is lossless. -/
theorem jsonLoads_dumpRecord (r : AlignmentRecord) :
    jsonLoads (dumpRecord r) = some (recordToJson r) := by
  unfold jsonLoads dumpRecord
  rw [show (String.mk (dumpRecordChars r)).data = dumpRecordChars r from rfl]
  have hlen : 7 * r.characters.length + 7 ≤ (dumpRecordChars r).length :=
    len_dumpRecordChars r
  rw [show 2 * (dumpRecordChars r).length + 2 =
      7 * r.characters.length +
        ((2 * (dumpRecordChars r).length - 7 * r.characters.length - 14) + 16)
    from by omega]
  have hp := parseVal_record
    (2 * (dumpRecordChars r).length - 7 * r.characters.length - 14) r []
  rw [List.append_nil] at hp
  rw [hp]
  rfl

/- ## 12. Path distinctness under the logger's directory layout -/

/-- The latest-alignment pointer differs from the latest-output pointer. -/
theorem latestAlign_ne_latestOutput (b : String) :
    latestAlignmentPath (AlignmentLogger.ofBase b) ≠
      latestOutputPath (AlignmentLogger.ofBase b) := by
  intro e
  have he := congrArg String.data e
  simp only [latestAlignmentPath, latestOutputPath, AlignmentLogger.ofBase,
    String.data_append, List.append_assoc] at he
  have he2 := List.append_cancel_left he
  have h1 : ("/alignment".data ++ "/alignment.txt".data).get? 1 = some 'a' := rfl
  rw [he2] at h1
  rw [show ("/outputs".data ++ "/output.txt".data).get? 1 = some 'o' from rfl]
    at h1
  exact absurd h1 (by decide)

/-- The latest-alignment pointer differs from every timestamped output file. -/
theorem latestAlign_ne_tsOutput (b tok : String) :
    latestAlignmentPath (AlignmentLogger.ofBase b) ≠
      tsOutputPath (AlignmentLogger.ofBase b) tok := by
  intro e
  have he := congrArg String.data e
  simp only [latestAlignmentPath, tsOutputPath, AlignmentLogger.ofBase,
    String.data_append, List.append_assoc] at he
  have he2 := List.append_cancel_left he
  have h1 : ("/alignment".data ++ "/alignment.txt".data).get? 1 = some 'a' := rfl
  rw [he2] at h1
  rw [show ("/outputs".data ++ ("/output_".data ++ (tok.data ++ ".txt".data))).get? 1
      = some 'o' from by
    rw [List.get?_eq_getElem?, List.getElem?_append_left (by decide)]
    rfl] at h1
  exact absurd h1 (by decide)

/- ## 13. The round-trip theorem for `save_alignment` -/

/-- C5: after any `save_alignment` call, `get_latest_alignment` returns
exactly the dictionary that was just serialised: the JSON round trip loses
nothing, for arbitrary text (including non-ASCII), characters, offsets and
durations. -/
theorem save_alignment_roundtrip (base : String) (now : DateTime) (text : String)
    (chars : List String) (times : List Int) (durations : Option (List Int))
    (fs : FS) :
    get_latest_alignment (AlignmentLogger.ofBase base)
        ((save_alignment (AlignmentLogger.ofBase base) now text chars times
          durations fs).2) =
      some (recordToJson (buildAlignmentRecord text chars times durations
        (strftimeToken now))) := by
  unfold save_alignment get_latest_alignment
  simp only [FS.write]
  simp
  rw [if_neg (latestAlign_ne_latestOutput base)]
  rw [if_neg (latestAlign_ne_tsOutput base (strftimeToken now))]
  exact jsonLoads_dumpRecord _

/- ## 14. The timestamp token is lexicographically monotone -/

/-- A zero-padded field has exactly its field width. -/
theorem padDigits_length (w : Nat) : ∀ n, (padDigits w n).length = w := by
  induction w with
  | zero => intro n; rfl
  | succ w ih => intro n; simp [padDigits, ih]

/-- Lexicographic order is preserved under a common prefix. -/
theorem lex_append_left (a : List Char) {x y : List Char}
    (h : List.Lex (· < ·) x y) : List.Lex (· < ·) (a ++ x) (a ++ y) := by
  induction a with
  | nil => exact h
  | cons c a ih => exact List.Lex.cons ih

/-- Equal-length lexicographically ordered prefixes decide the comparison. -/
theorem lex_append_of_lt : ∀ {x y : List Char}, x.length = y.length →
    List.Lex (· < ·) x y → ∀ (a b : List Char),
    List.Lex (· < ·) (x ++ a) (y ++ b) := by
  intro x y hlen h
  revert hlen
  induction h with
  | nil => intro hlen; simp at hlen
  | cons h ih =>
    intro hlen a b
    exact List.Lex.cons (ih (by simpa using hlen) a b)
  | rel h => intro hlen a b; exact List.Lex.rel h

/-- Decimal digit characters compare like their values. -/
theorem digitChar_lt_digitChar (a b : Nat) (ha : a < 10) (hb : b < 10)
    (hab : a < b) : Nat.digitChar a < Nat.digitChar b := by
  interval_cases a <;> interval_cases b <;> first | omega | decide

/-- Zero-padded decimal fields compare lexicographically like their values. -/
theorem padDigits_lt : ∀ (w m n : Nat), m < n → n < 10 ^ w →
    List.Lex (· < ·) (padDigits w m) (padDigits w n) := by
  intro w
  induction w with
  | zero =>
    intro m n hmn hn
    rw [pow_zero] at hn
    omega
  | succ w ih =>
    intro m n hmn hn
    simp only [padDigits]
    rcases Nat.lt_trichotomy (m / 10) (n / 10) with h | h | h
    · refine lex_append_of_lt (by simp [padDigits_length]) (ih _ _ h ?_) _ _
      rw [Nat.div_lt_iff_lt_mul (by norm_num)]
      calc n < 10 ^ (w + 1) := hn
        _ = 10 ^ w * 10 := by ring
    · have hm : m % 10 < n % 10 := by omega
      rw [h]
      exact lex_append_left _ (List.Lex.rel (digitChar_lt_digitChar _ _
        (Nat.mod_lt _ (by norm_num)) (Nat.mod_lt _ (by norm_num)) hm))
    · exfalso
      have := Nat.div_le_div_right (c := 10) (le_of_lt hmn)
      omega

/-- The `strftime` token is strictly increasing in the clock reading: a later
valid reading yields a lexicographically larger token. -/
theorem strftimeToken_lt (t u : DateTime) (_ht : t.valid) (hu : u.valid)
    (h : t.before u) : strftimeToken t < strftimeToken u := by
  obtain ⟨hy, hmo, hd, hh, hmi, hs, hus⟩ := hu
  have hy' : u.year < 10 ^ 4 := by norm_num; omega
  have hmo' : u.month < 10 ^ 2 := by norm_num; omega
  have hd' : u.day < 10 ^ 2 := by norm_num; omega
  have hh' : u.hour < 10 ^ 2 := by norm_num; omega
  have hmi' : u.minute < 10 ^ 2 := by norm_num; omega
  have hs' : u.second < 10 ^ 2 := by norm_num; omega
  have hus' : u.micro < 10 ^ 6 := by norm_num; omega
  rw [String.lt_iff_toList_lt]
  show List.Lex (· < ·)
    (padDigits 4 t.year ++ padDigits 2 t.month ++ padDigits 2 t.day ++
      '_' :: (padDigits 2 t.hour ++ padDigits 2 t.minute ++ padDigits 2 t.second ++
        '_' :: padDigits 6 t.micro))
    (padDigits 4 u.year ++ padDigits 2 u.month ++ padDigits 2 u.day ++
      '_' :: (padDigits 2 u.hour ++ padDigits 2 u.minute ++ padDigits 2 u.second ++
        '_' :: padDigits 6 u.micro))
  simp only [List.append_assoc]
  rcases h with h | ⟨e1, h | ⟨e2, h | ⟨e3, h | ⟨e4, h | ⟨e5, h | ⟨e6, h⟩⟩⟩⟩⟩⟩
  · exact lex_append_of_lt (by simp [padDigits_length])
      (padDigits_lt 4 _ _ h hy') _ _
  · rw [e1]
    refine lex_append_left _ ?_
    exact lex_append_of_lt (by simp [padDigits_length])
      (padDigits_lt 2 _ _ h hmo') _ _
  · rw [e1, e2]
    refine lex_append_left _ (lex_append_left _ ?_)
    exact lex_append_of_lt (by simp [padDigits_length])
      (padDigits_lt 2 _ _ h hd') _ _
  · rw [e1, e2, e3]
    refine lex_append_left _ (lex_append_left _ (lex_append_left _
      (List.Lex.cons ?_)))
    exact lex_append_of_lt (by simp [padDigits_length])
      (padDigits_lt 2 _ _ h hh') _ _
  · rw [e1, e2, e3, e4]
    refine lex_append_left _ (lex_append_left _ (lex_append_left _
      (List.Lex.cons (lex_append_left _ ?_))))
    exact lex_append_of_lt (by simp [padDigits_length])
      (padDigits_lt 2 _ _ h hmi') _ _
  · rw [e1, e2, e3, e4, e5]
    refine lex_append_left _ (lex_append_left _ (lex_append_left _
      (List.Lex.cons (lex_append_left _ (lex_append_left _ ?_)))))
    exact lex_append_of_lt (by simp [padDigits_length])
      (padDigits_lt 2 _ _ h hs') _ _
  · rw [e1, e2, e3, e4, e5, e6]
    refine lex_append_left _ (lex_append_left _ (lex_append_left _
      (List.Lex.cons (lex_append_left _ (lex_append_left _
        (lex_append_left _ (List.Lex.cons ?_)))))))
    exact padDigits_lt 6 _ _ h hus'

/-- Distinct ordered clock readings give distinct tokens. -/
theorem strftimeToken_ne (t u : DateTime) (ht : t.valid) (hu : u.valid)
    (h : t.before u) : strftimeToken t ≠ strftimeToken u :=
  ne_of_lt (strftimeToken_lt t u ht hu h)

/- ## 15. Last-write-wins across two sequential saves -/

/-- Timestamped alignment files differ from the latest-output pointer. -/
theorem tsAlign_ne_latestOutput (b tok : String) :
    tsAlignmentPath (AlignmentLogger.ofBase b) tok ≠
      latestOutputPath (AlignmentLogger.ofBase b) := by
  intro e
  have he := congrArg String.data e
  simp only [tsAlignmentPath, latestOutputPath, AlignmentLogger.ofBase,
    String.data_append, List.append_assoc] at he
  have he2 := List.append_cancel_left he
  have h1 : ("/alignment".data ++ ("/alignment_".data ++
      (tok.data ++ ".json".data))).get? 1 = some 'a' := rfl
  rw [he2] at h1
  rw [show ("/outputs".data ++ "/output.txt".data).get? 1 = some 'o' from rfl]
    at h1
  exact absurd h1 (by decide)

/-- Timestamped alignment files differ from every timestamped output file. -/
theorem tsAlign_ne_tsOutput (b tok tok2 : String) :
    tsAlignmentPath (AlignmentLogger.ofBase b) tok ≠
      tsOutputPath (AlignmentLogger.ofBase b) tok2 := by
  intro e
  have he := congrArg String.data e
  simp only [tsAlignmentPath, tsOutputPath, AlignmentLogger.ofBase,
    String.data_append, List.append_assoc] at he
  have he2 := List.append_cancel_left he
  have h1 : ("/alignment".data ++ ("/alignment_".data ++
      (tok.data ++ ".json".data))).get? 1 = some 'a' := rfl
  rw [he2] at h1
  rw [show ("/outputs".data ++ ("/output_".data ++
      (tok2.data ++ ".txt".data))).get? 1 = some 'o' from by
    rw [List.get?_eq_getElem?, List.getElem?_append_left (by decide)]
    rfl] at h1
  exact absurd h1 (by decide)

/-- Timestamped alignment files differ from the latest-alignment pointer. -/
theorem tsAlign_ne_latestAlign (b tok : String) :
    tsAlignmentPath (AlignmentLogger.ofBase b) tok ≠
      latestAlignmentPath (AlignmentLogger.ofBase b) := by
  intro e
  have he := congrArg String.data e
  simp only [tsAlignmentPath, latestAlignmentPath, AlignmentLogger.ofBase,
    String.data_append, List.append_assoc] at he
  have he2 := List.append_cancel_left (List.append_cancel_left he)
  have h1 : ("/alignment_".data ++ (tok.data ++ ".json".data)).get? 10 =
      some '_' := by
    rw [List.get?_eq_getElem?, List.getElem?_append_left (by decide)]
    rfl
  rw [he2] at h1
  rw [show ("/alignment.txt".data).get? 10 = some '.' from rfl] at h1
  exact absurd h1 (by decide)

/-- Two timestamped alignment files with distinct tokens are distinct. -/
theorem tsAlign_inj (b tok tok2 : String)
    (e : tsAlignmentPath (AlignmentLogger.ofBase b) tok =
      tsAlignmentPath (AlignmentLogger.ofBase b) tok2) : tok = tok2 := by
  have he := congrArg String.data e
  simp only [tsAlignmentPath, AlignmentLogger.ofBase, String.data_append,
    List.append_assoc] at he
  have he2 := List.append_cancel_left (List.append_cancel_left
    (List.append_cancel_left he))
  have he3 : tok.data = tok2.data := List.append_cancel_right he2
  cases tok
  cases tok2
  exact congrArg String.mk he3

/-- C7: two sequential `save_alignment` calls at valid, strictly later clock
readings produce distinct, lexicographically increasing timestamp tokens and
two distinct timestamped alignment files, each holding its own call's record,
while the latest pointer `alignment.txt` afterwards holds exactly the second
call's content (last write wins). -/
theorem save_alignment_two_calls (base : String) (t1 t2 : DateTime)
    (text1 text2 : String) (chars1 chars2 : List String)
    (times1 times2 : List Int) (dur1 dur2 : Option (List Int)) (fs : FS)
    (h1 : t1.valid) (h2 : t2.valid) (h12 : t1.before t2) :
    strftimeToken t1 ≠ strftimeToken t2 ∧
    strftimeToken t1 < strftimeToken t2 ∧
    (save_alignment (AlignmentLogger.ofBase base) t1 text1 chars1 times1 dur1 fs).1 ≠ (save_alignment (AlignmentLogger.ofBase base) t2 text2 chars2 times2 dur2 (save_alignment (AlignmentLogger.ofBase base) t1 text1 chars1 times1 dur1 fs).2).1 ∧
    (save_alignment (AlignmentLogger.ofBase base) t2 text2 chars2 times2 dur2 (save_alignment (AlignmentLogger.ofBase base) t1 text1 chars1 times1 dur1 fs).2).2 (save_alignment (AlignmentLogger.ofBase base) t1 text1 chars1 times1 dur1 fs).1 =
      some (FileObj.ok (dumpRecord (buildAlignmentRecord text1 chars1 times1 dur1 (strftimeToken t1)))) ∧
    (save_alignment (AlignmentLogger.ofBase base) t2 text2 chars2 times2 dur2 (save_alignment (AlignmentLogger.ofBase base) t1 text1 chars1 times1 dur1 fs).2).2 (save_alignment (AlignmentLogger.ofBase base) t2 text2 chars2 times2 dur2 (save_alignment (AlignmentLogger.ofBase base) t1 text1 chars1 times1 dur1 fs).2).1 =
      some (FileObj.ok (dumpRecord (buildAlignmentRecord text2 chars2 times2 dur2 (strftimeToken t2)))) ∧
    (save_alignment (AlignmentLogger.ofBase base) t2 text2 chars2 times2 dur2 (save_alignment (AlignmentLogger.ofBase base) t1 text1 chars1 times1 dur1 fs).2).2 (latestAlignmentPath (AlignmentLogger.ofBase base)) =
      some (FileObj.ok (dumpRecord (buildAlignmentRecord text2 chars2 times2 dur2 (strftimeToken t2)))) := by
  have htokne := strftimeToken_ne t1 t2 h1 h2 h12
  refine ⟨htokne, strftimeToken_lt t1 t2 h1 h2 h12, ?_, ?_, ?_, ?_⟩
  · intro e
    exact htokne (tsAlign_inj base _ _ e)
  · show (FS.write (FS.write (FS.write (FS.write (save_alignment (AlignmentLogger.ofBase base) t1 text1 chars1 times1 dur1 fs).2
        (tsAlignmentPath (AlignmentLogger.ofBase base) (strftimeToken t2)) (dumpRecord (buildAlignmentRecord text2 chars2 times2 dur2 (strftimeToken t2))))
        (latestAlignmentPath (AlignmentLogger.ofBase base)) (dumpRecord (buildAlignmentRecord text2 chars2 times2 dur2 (strftimeToken t2))))
        (tsOutputPath (AlignmentLogger.ofBase base) (strftimeToken t2)) text2)
        (latestOutputPath (AlignmentLogger.ofBase base)) text2)
        (tsAlignmentPath (AlignmentLogger.ofBase base) (strftimeToken t1)) =
      some (FileObj.ok (dumpRecord (buildAlignmentRecord text1 chars1 times1 dur1 (strftimeToken t1))))
    unfold save_alignment
    simp only [FS.write]
    simp
    rw [if_neg (tsAlign_ne_latestOutput base _),
      if_neg (tsAlign_ne_tsOutput base _ _),
      if_neg (tsAlign_ne_latestAlign base _),
      if_neg (fun e => htokne (tsAlign_inj base _ _ e)),
      if_neg (tsAlign_ne_latestOutput base _),
      if_neg (tsAlign_ne_tsOutput base _ _)]
  · unfold save_alignment
    simp only [FS.write]
    simp
    rw [if_neg (tsAlign_ne_latestOutput base _),
      if_neg (tsAlign_ne_tsOutput base _ _)]
  · unfold save_alignment
    simp only [FS.write]
    simp
    rw [if_neg (latestAlign_ne_latestOutput base),
      if_neg (latestAlign_ne_tsOutput base _)]

/-- C7 witness: two concrete readings one microsecond apart are valid and
ordered, and the two-call theorem applies to them. -/
theorem save_alignment_two_calls_witness :
    (DateTime.valid (DateTime.mk 2025 10 12 9 30 0 0)) ∧
    (DateTime.valid (DateTime.mk 2025 10 12 9 30 0 1)) ∧
    (DateTime.before (DateTime.mk 2025 10 12 9 30 0 0) (DateTime.mk 2025 10 12 9 30 0 1)) ∧
    (strftimeToken (DateTime.mk 2025 10 12 9 30 0 0) ≠ strftimeToken (DateTime.mk 2025 10 12 9 30 0 1) ∧
     strftimeToken (DateTime.mk 2025 10 12 9 30 0 0) < strftimeToken (DateTime.mk 2025 10 12 9 30 0 1) ∧
     (save_alignment (AlignmentLogger.ofBase "logs") (DateTime.mk 2025 10 12 9 30 0 0) "hi" ["h", "i"] [0, 100] (some [50, 50]) (fun _ => none)).1 ≠ (save_alignment (AlignmentLogger.ofBase "logs") (DateTime.mk 2025 10 12 9 30 0 1) "ok" ["o", "k"] [5, 10] none (save_alignment (AlignmentLogger.ofBase "logs") (DateTime.mk 2025 10 12 9 30 0 0) "hi" ["h", "i"] [0, 100] (some [50, 50]) (fun _ => none)).2).1 ∧
     (save_alignment (AlignmentLogger.ofBase "logs") (DateTime.mk 2025 10 12 9 30 0 1) "ok" ["o", "k"] [5, 10] none (save_alignment (AlignmentLogger.ofBase "logs") (DateTime.mk 2025 10 12 9 30 0 0) "hi" ["h", "i"] [0, 100] (some [50, 50]) (fun _ => none)).2).2 (save_alignment (AlignmentLogger.ofBase "logs") (DateTime.mk 2025 10 12 9 30 0 0) "hi" ["h", "i"] [0, 100] (some [50, 50]) (fun _ => none)).1 =
       some (FileObj.ok (dumpRecord (buildAlignmentRecord "hi" ["h", "i"] [0, 100] (some [50, 50]) (strftimeToken (DateTime.mk 2025 10 12 9 30 0 0))))) ∧
     (save_alignment (AlignmentLogger.ofBase "logs") (DateTime.mk 2025 10 12 9 30 0 1) "ok" ["o", "k"] [5, 10] none (save_alignment (AlignmentLogger.ofBase "logs") (DateTime.mk 2025 10 12 9 30 0 0) "hi" ["h", "i"] [0, 100] (some [50, 50]) (fun _ => none)).2).2 (save_alignment (AlignmentLogger.ofBase "logs") (DateTime.mk 2025 10 12 9 30 0 1) "ok" ["o", "k"] [5, 10] none (save_alignment (AlignmentLogger.ofBase "logs") (DateTime.mk 2025 10 12 9 30 0 0) "hi" ["h", "i"] [0, 100] (some [50, 50]) (fun _ => none)).2).1 =
       some (FileObj.ok (dumpRecord (buildAlignmentRecord "ok" ["o", "k"] [5, 10] none (strftimeToken (DateTime.mk 2025 10 12 9 30 0 1))))) ∧
     (save_alignment (AlignmentLogger.ofBase "logs") (DateTime.mk 2025 10 12 9 30 0 1) "ok" ["o", "k"] [5, 10] none (save_alignment (AlignmentLogger.ofBase "logs") (DateTime.mk 2025 10 12 9 30 0 0) "hi" ["h", "i"] [0, 100] (some [50, 50]) (fun _ => none)).2).2 (latestAlignmentPath (AlignmentLogger.ofBase "logs")) =
       some (FileObj.ok (dumpRecord (buildAlignmentRecord "ok" ["o", "k"] [5, 10] none (strftimeToken (DateTime.mk 2025 10 12 9 30 0 1)))))) :=
  ⟨by decide, by decide, by decide,
   save_alignment_two_calls "logs" (DateTime.mk 2025 10 12 9 30 0 0) (DateTime.mk 2025 10 12 9 30 0 1) "hi" "ok" ["h", "i"] ["o", "k"]
     [0, 100] [5, 10] (some [50, 50]) none (fun _ => none)
     (by decide) (by decide) (by decide)⟩
